import Mathlib

/-!
The sc4336 MIPI sensor driver: exposure, gain, frame length, frame rate, orientation.

A shallow embedding of `sc4336_mipi.c` (sunxi-vin sensor module).

Conventions of the embedding
* A C `int` is a Lean `Int`; an unsigned quantity (`unsigned int`, `data_type`,
  `unsigned char`) is a `Nat`.  A narrowing that the source spells out
  (`(unsigned char)` casts, the `unsigned int` parameter of `sensor_s_exp`, the
  `__s32` result of the getters) is an explicit reduction modulo a power of two.
* `&`, `|`, `<<`, `>>` on unsigned values are the `Nat` bit operations; on `int`
  values `&` is `Int.land` and `>>` is the arithmetic shift of `Int`.
* `/` on `int` is `Int.tdiv` (C truncates towards zero); a zero divisor makes the
  operation undefined, which the embedding renders as `none`.
* The register bus (`sensor_read`, `sensor_write`) is not part of the file; it is
  modelled as a transaction log together with an oracle that fixes, for each
  transaction in turn, the return code and (for a read) the value delivered.
-/

namespace Sc4336

/-! ## Machine integers -/

/-- Conversion of an integer value to C `unsigned int` (32 bits). -/
def u32 (x : Int) : Nat := (x % 2 ^ 32).toNat

/-- Conversion of an integer value to C `int` / `__s32` (32 bits, two's complement). -/
def s32 (x : Int) : Int := (x + 2 ^ 31) % 2 ^ 32 - 2 ^ 31

/-- The cast `(unsigned char) x` of an unsigned value. -/
def uchar (x : Nat) : Nat := x % 256

/-- The cast `(unsigned char) x` of an `int` value. -/
def uchar_of_int (x : Int) : Nat := (x % 256).toNat

/-- C integer division on `int`: truncation towards zero. -/
def c_div (a b : Int) : Int := Int.tdiv a b

/-! ## The register bus -/

/-- One bus transaction issued by the driver: `rd reg` is `sensor_read(sd, reg, &v)`,
`wr reg value` is `sensor_write(sd, reg, value)` with `value` the argument as the
caller computed it (the device keeps its low eight bits, `data_width = CCI_BITS_8`). -/
inductive cci_op where
  | rd (reg : Nat)
  | wr (reg : Nat) (value : Int)
  deriving DecidableEq, Repr

/-- The bus as the driver sees it.  `log` lists the transactions issued so far, oldest
first.  The transaction issued when `log` has length `n` gets return code `ret n`, and
if it is a read it leaves `val n` in the caller's variable. -/
structure cci_dev where
  ret : Nat → Int
  val : Nat → Nat
  log : List cci_op

/-- Bus call `sensor_write(sd, reg, value)`: return code and bus afterwards. -/
def sensor_write (d : cci_dev) (reg : Nat) (value : Int) : Int × cci_dev :=
  (d.ret d.log.length, { d with log := d.log ++ [cci_op.wr reg value] })

/-- Bus call `sensor_read(sd, reg, &v)`: return code, value left in `v`, and bus afterwards. -/
def sensor_read (d : cci_dev) (reg : Nat) : Int × Nat × cci_dev :=
  (d.ret d.log.length, d.val d.log.length, { d with log := d.log ++ [cci_op.rd reg] })

/-! ## Catalog structures and session state -/

/-- Record `struct regval_list`: one (address, value) pair of a register program. -/
structure regval_list where
  addr : Nat
  data : Nat
  deriving DecidableEq, Repr

/-- Record `struct sensor_format_struct`, the fields the driver uses. -/
structure sensor_format_struct where
  mbus_code : Nat
  regs : List regval_list
  bpp : Nat

/-- Record `struct sensor_win_size`, the fields the driver uses.  `regs` is a nullable
pointer, `set_size` a nullable hook acting on the device.  The numeric fields hold
mathematical integers; the driver's values (`pclk = 126000000`, `hts = 2800`,
`vts = 1800`) and every quotient formed from them lie far inside the 32-bit range, where
C's arithmetic and the exact arithmetic used here agree. -/
structure sensor_win_size where
  width : Int
  height : Int
  hts : Int
  vts : Int
  pclk : Int
  fps_fixed : Int
  intg_min : Int
  intg_max : Int
  gain_min : Int
  gain_max : Int
  regs : Option (List regval_list)
  set_size : Option (cci_dev → cci_dev)

/-- Record `struct sensor_info`, the fields the driver touches. -/
structure sensor_info where
  fmt : sensor_format_struct
  current_wins : sensor_win_size
  width : Int
  height : Int
  focus_status : Int
  low_speed : Int
  hflip : Int
  vflip : Int
  gain : Int
  exp : Int
  tpf_numerator : Int
  tpf_denominator : Int

/-- The whole mutable state one driver call sees: the session (`info`), the file-scope
statics `sc4336_sensor_vts` and `sc4336_fps_change_flag`, the function-scope static
`is_ht` of `sensor_get_temp`, and the bus. -/
structure sensor_state where
  info : sensor_info
  sc4336_sensor_vts : Int
  sc4336_fps_change_flag : Int
  is_ht : Int
  bus : cci_dev

/-! ## Constants and tables -/

/-- Constant `#define V4L2_IDENT_SENSOR 0xdc42`. -/
def V4L2_IDENT_SENSOR : Nat := 0xdc42

/-- Constant `#define SENSOR_HOR_VER_CFG0_REG1 1`, the compile-time switch of the flip encoding. -/
def SENSOR_HOR_VER_CFG0_REG1 : Nat := 1

/-- Constant `ENODEV` of the kernel's errno table. -/
def ENODEV : Int := 19

/-- Constant `EINVAL` of the kernel's errno table. -/
def EINVAL : Int := 22

/-- Table `sensor_default_regs[]`, 139 entries in source order. -/
def sensor_default_regs : List regval_list := [
  regval_list.mk 0x0103 0x01, regval_list.mk 0x0100 0x00, regval_list.mk 0x36e9 0x80, regval_list.mk 0x37f9 0x80,
  regval_list.mk 0x301f 0x01, regval_list.mk 0x30b8 0x44, regval_list.mk 0x320c 0x0a, regval_list.mk 0x320d 0xf0,
  regval_list.mk 0x320e 0x07, regval_list.mk 0x320f 0x08, regval_list.mk 0x3250 0x40, regval_list.mk 0x3253 0x10,
  regval_list.mk 0x3301 0x0a, regval_list.mk 0x3302 0xff, regval_list.mk 0x3305 0x00, regval_list.mk 0x3306 0x90,
  regval_list.mk 0x3308 0x08, regval_list.mk 0x330a 0x01, regval_list.mk 0x330b 0xb0, regval_list.mk 0x330d 0xf0,
  regval_list.mk 0x3333 0x10, regval_list.mk 0x335e 0x06, regval_list.mk 0x335f 0x0a, regval_list.mk 0x3364 0x5e,
  regval_list.mk 0x337d 0x0e, regval_list.mk 0x338f 0x20, regval_list.mk 0x3390 0x08, regval_list.mk 0x3391 0x09,
  regval_list.mk 0x3392 0x0f, regval_list.mk 0x3393 0x18, regval_list.mk 0x3394 0x60, regval_list.mk 0x3395 0xff,
  regval_list.mk 0x3396 0x08, regval_list.mk 0x3397 0x09, regval_list.mk 0x3398 0x0f, regval_list.mk 0x3399 0x0a,
  regval_list.mk 0x339a 0x18, regval_list.mk 0x339b 0x60, regval_list.mk 0x339c 0xff, regval_list.mk 0x33a2 0x04,
  regval_list.mk 0x33ad 0x0c, regval_list.mk 0x33b2 0x40, regval_list.mk 0x33b3 0x30, regval_list.mk 0x33f8 0x00,
  regval_list.mk 0x33f9 0xa0, regval_list.mk 0x33fa 0x00, regval_list.mk 0x33fb 0xe0, regval_list.mk 0x33fc 0x09,
  regval_list.mk 0x33fd 0x1f, regval_list.mk 0x349f 0x03, regval_list.mk 0x34a6 0x09, regval_list.mk 0x34a7 0x1f,
  regval_list.mk 0x34a8 0x28, regval_list.mk 0x34a9 0x28, regval_list.mk 0x34aa 0x01, regval_list.mk 0x34ab 0xd0,
  regval_list.mk 0x34ac 0x02, regval_list.mk 0x34ad 0x10, regval_list.mk 0x34f8 0x1f, regval_list.mk 0x34f9 0x20,
  regval_list.mk 0x3630 0xc0, regval_list.mk 0x3631 0x84, regval_list.mk 0x3633 0x44, regval_list.mk 0x3637 0x4c,
  regval_list.mk 0x3641 0x38, regval_list.mk 0x3670 0x56, regval_list.mk 0x3674 0xc0, regval_list.mk 0x3675 0xa0,
  regval_list.mk 0x3676 0xa0, regval_list.mk 0x3677 0x84, regval_list.mk 0x3678 0x88, regval_list.mk 0x3679 0x8d,
  regval_list.mk 0x367c 0x09, regval_list.mk 0x367d 0x0b, regval_list.mk 0x367e 0x08, regval_list.mk 0x367f 0x0f,
  regval_list.mk 0x3696 0x44, regval_list.mk 0x3697 0x54, regval_list.mk 0x3698 0x54, regval_list.mk 0x36a0 0x0f,
  regval_list.mk 0x36a1 0x1f, regval_list.mk 0x36b0 0x81, regval_list.mk 0x36b1 0x83, regval_list.mk 0x36b2 0x85,
  regval_list.mk 0x36b3 0x8b, regval_list.mk 0x36b4 0x09, regval_list.mk 0x36b5 0x0b, regval_list.mk 0x36b6 0x0f,
  regval_list.mk 0x370f 0x01, regval_list.mk 0x3722 0x09, regval_list.mk 0x3724 0x21, regval_list.mk 0x3771 0x09,
  regval_list.mk 0x3772 0x05, regval_list.mk 0x3773 0x05, regval_list.mk 0x377a 0x0f, regval_list.mk 0x377b 0x1f,
  regval_list.mk 0x3905 0x8c, regval_list.mk 0x391d 0x04, regval_list.mk 0x3926 0x21, regval_list.mk 0x3933 0x80,
  regval_list.mk 0x3934 0x03, regval_list.mk 0x3935 0x00, regval_list.mk 0x3936 0x08, regval_list.mk 0x3937 0x74,
  regval_list.mk 0x3938 0x6f, regval_list.mk 0x3939 0x00, regval_list.mk 0x393a 0x00, regval_list.mk 0x39dc 0x02,
  regval_list.mk 0x3e00 0x00, regval_list.mk 0x3e01 0x5d, regval_list.mk 0x3e02 0x40, regval_list.mk 0x440e 0x02,
  regval_list.mk 0x4509 0x28, regval_list.mk 0x450d 0x32, regval_list.mk 0x4800 0x44, regval_list.mk 0x4816 0x51,
  regval_list.mk 0x5000 0x06, regval_list.mk 0x5799 0x46, regval_list.mk 0x579a 0x77, regval_list.mk 0x57d9 0x46,
  regval_list.mk 0x57da 0x77, regval_list.mk 0x5ae0 0xfe, regval_list.mk 0x5ae1 0x40, regval_list.mk 0x5ae2 0x38,
  regval_list.mk 0x5ae3 0x30, regval_list.mk 0x5ae4 0x28, regval_list.mk 0x5ae5 0x38, regval_list.mk 0x5ae6 0x30,
  regval_list.mk 0x5ae7 0x28, regval_list.mk 0x5ae8 0x3f, regval_list.mk 0x5ae9 0x34, regval_list.mk 0x5aea 0x2c,
  regval_list.mk 0x5aeb 0x3f, regval_list.mk 0x5aec 0x34, regval_list.mk 0x5aed 0x2c, regval_list.mk 0x36e9 0x44,
  regval_list.mk 0x37f9 0x44, regval_list.mk 0x3221 0x66, regval_list.mk 0x0100 0x01]

/-- Table `sensor_fmt_raw[]`: empty. -/
def sensor_fmt_raw : List regval_list := []

/-- Constant `MEDIA_BUS_FMT_SBGGR10_1X10` of the media-bus format table. -/
def MEDIA_BUS_FMT_SBGGR10_1X10 : Nat := 0x3007

/-- Entry `sensor_formats[0]`. -/
def sensor_formats_0 : sensor_format_struct :=
  { mbus_code := MEDIA_BUS_FMT_SBGGR10_1X10, regs := sensor_fmt_raw, bpp := 1 }

/-- Entry `sensor_win_sizes[0]`, the 2560x1440 window. -/
def sensor_win_sizes_0 : sensor_win_size :=
  { width := 2560, height := 1440, hts := 2800, vts := 1800, pclk := 126000000,
    fps_fixed := 25, intg_min := 2 <<< 4, intg_max := (1800 - 8) <<< 4,
    gain_min := 1 <<< 4, gain_max := 512 <<< 4,
    regs := some sensor_default_regs, set_size := none }

/-- Record `struct sensor_exp_gain`, the two fields `sensor_s_exp_gain` reads. -/
structure sensor_exp_gain where
  exp_val : Int
  gain_val : Int

/-- Record `struct sensor_fps`. -/
structure sensor_fps where
  fps : Int

/-! ## Exposure -/

/-- Function `sensor_g_exp`: returns 0 and stores `info->exp` in the `__s32` result. -/
def sensor_g_exp (s : sensor_state) : Int × Int :=
  (0, s32 s.info.exp)

/-- Function `sensor_s_exp(sd, exp_val)` with `exp_val` the `unsigned int` parameter. -/
def sensor_s_exp (s : sensor_state) (exp_val : Nat) : Int × sensor_state :=
  let exphigh : Nat := uchar (0x0f &&& (exp_val >>> 16))
  let expmid : Nat := uchar (0xff &&& (exp_val >>> 8))
  let explow : Nat := uchar (0xf0 &&& (exp_val <<< 0))
  let b1 := (sensor_write s.bus 0x3e02 explow).2
  let b2 := (sensor_write b1 0x3e01 expmid).2
  let b3 := (sensor_write b2 0x3e00 exphigh).2
  (0, { s with bus := b3, info := { s.info with exp := exp_val } })


/-! ## Gain -/

/-- Function `sensor_g_gain`: returns 0 and stores `info->gain` in the `__s32` result. -/
def sensor_g_gain (s : sensor_state) : Int × Int :=
  (0, s32 s.info.gain)

/-- Function `sensor_s_gain(sd, gain_val)`.  The locals `anagain`, `gaindighigh`, `gaindiglow`
have the unsigned type `data_type`, at least as wide as `unsigned char`; each is used
only under an `(unsigned char)` cast, so the local holds the assigned `int` value and
the cast at the write reduces it modulo 256. -/
def sensor_s_gain (s : sensor_state) (gain_val : Int) : Int × sensor_state :=
  let gain_tmp : Int := s32 (gain_val <<< (3 : Int))
  let r : Int × Int × Int :=
    if gain_val < 32 then (0x00, 0x00, gain_tmp)
    else if gain_val < 64 then (0x08, 0x00, c_div (c_div (gain_tmp * 100) 200) 1)
    else if gain_val < 128 then (0x09, 0x00, c_div (c_div (gain_tmp * 100) 200) 2)
    else if gain_val < 256 then (0x0b, 0x00, c_div (c_div (gain_tmp * 100) 200) 4)
    else if gain_val < 512 then (0x0f, 0x00, c_div (c_div (gain_tmp * 100) 200) 8)
    else if gain_val < 1024 then (0x1f, 0x00, c_div (c_div (gain_tmp * 100) 200) 16)
    else if gain_val < 2048 then (0x1f, 0x01, c_div (c_div (gain_tmp * 100) 200) 32)
    else if gain_val < 4096 then (0x1f, 0x03, c_div (c_div (gain_tmp * 100) 200) 64)
    else if gain_val < 8192 then (0x1f, 0x07, c_div (c_div (gain_tmp * 100) 200) 128)
    else (0x1f, 0x07, 0xfc)
  let anagain := r.1
  let gaindighigh := r.2.1
  let gaindiglow := r.2.2
  let b1 := (sensor_write s.bus 0x3e09 (uchar_of_int anagain)).2
  let b2 := (sensor_write b1 0x3e07 (uchar_of_int gaindiglow)).2
  let b3 := (sensor_write b2 0x3e06 (uchar_of_int gaindighigh)).2
  (0, { s with bus := b3, info := { s.info with gain := gain_val } })

/-! ## Combined exposure and gain, frame length -/

/-- Function `sensor_s_exp_gain(sd, exp_gain)`. -/
def sensor_s_exp_gain (s : sensor_state) (exp_gain : sensor_exp_gain) : Int × sensor_state :=
  let exp_val : Int := exp_gain.exp_val
  let gain_val : Int := exp_gain.gain_val
  let gain_val : Int := if gain_val < 1 * 16 then 16 else gain_val
  let exp_val : Int := if exp_val > 0xfffff then 0xfffff else exp_val
  let s1 : sensor_state :=
    if s.sc4336_fps_change_flag = 0 then
      let shutter : Int := exp_val >>> 4
      let frame_length : Int :=
        if shutter > s.sc4336_sensor_vts - 8 then shutter + 8 else s.sc4336_sensor_vts
      let b1 := (sensor_write s.bus 0x320f (Int.land frame_length 0xff)).2
      let b2 := (sensor_write b1 0x320e (frame_length >>> 8)).2
      { s with bus := b2 }
    else s
  let s2 := (sensor_s_exp s1 (u32 exp_val)).2
  let s3 := (sensor_s_gain s2 gain_val).2
  (0, { s3 with info := { s3.info with exp := exp_val, gain := gain_val } })

/-! ## Frame rate -/

/-- Function `sensor_s_fps(sd, fps)`.  The three divisions have divisors `fps->fps` and
`wsize->hts`; when one of them is zero the call has no result.  The guard flag is set
on entry (`s0`) and cleared in the state returned. -/
def sensor_s_fps (s : sensor_state) (fps : sensor_fps) : Option (Int × sensor_state) :=
  let wsize := s.info.current_wins
  let s0 : sensor_state := { s with sc4336_fps_change_flag := 1 }
  if fps.fps = 0 ∨ wsize.hts = 0 then none
  else
    let sc4336_sensor_target_vts : Int := c_div (c_div wsize.pclk fps.fps) wsize.hts
    let sc4336_sensor_target_vts : Int :=
      if sc4336_sensor_target_vts ≤ wsize.vts then wsize.vts
      else if sc4336_sensor_target_vts ≥ c_div wsize.pclk wsize.hts then
        c_div wsize.pclk wsize.hts - 8
      else sc4336_sensor_target_vts
    let s1 : sensor_state := { s0 with sc4336_sensor_vts := sc4336_sensor_target_vts }
    let b1 := (sensor_write s1.bus 0x320f (Int.land sc4336_sensor_target_vts 0xff)).2
    let b2 := (sensor_write b1 0x320e (sc4336_sensor_target_vts >>> 8)).2
    some (0, { s1 with bus := b2, sc4336_fps_change_flag := 0 })

/-! ## Orientation -/

/-- Function `sensor_s_hflip(sd, enable)`. -/
def sensor_s_hflip (s : sensor_state) (enable : Int) : Int × sensor_state :=
  if ¬ (enable = 0 ∨ enable = 1) then (-1, s)
  else
    let r := sensor_read s.bus 0x3221
    let get_value : Nat := r.2.1
    let set_value : Nat :=
      if SENSOR_HOR_VER_CFG0_REG1 = 1 then
        (if enable ≠ 0 then get_value &&& 0xf9 else get_value ||| 0x06)
      else
        (if enable ≠ 0 then get_value ||| 0x06 else get_value &&& 0xf9)
    let b2 := (sensor_write r.2.2 0x3221 set_value).2
    (0, { s with bus := b2 })

/-- Function `sensor_s_vflip(sd, enable)`. -/
def sensor_s_vflip (s : sensor_state) (enable : Int) : Int × sensor_state :=
  if ¬ (enable = 0 ∨ enable = 1) then (-1, s)
  else
    let r := sensor_read s.bus 0x3221
    let get_value : Nat := r.2.1
    let set_value : Nat :=
      if SENSOR_HOR_VER_CFG0_REG1 = 1 then
        (if enable ≠ 0 then get_value &&& 0x9f else get_value ||| 0x60)
      else
        (if enable ≠ 0 then get_value ||| 0x60 else get_value &&& 0x9f)
    let b2 := (sensor_write r.2.2 0x3221 set_value).2
    (0, { s with bus := b2 })

/-- Function `sensor_get_fmt_mbus_core(sd, code)`: return code, `*code`, state afterwards. -/
def sensor_get_fmt_mbus_core (s : sensor_state) : Int × Nat × sensor_state :=
  let r := sensor_read s.bus 0x3221
  let get_value : Nat := r.2.1
  let code : Nat :=
    if get_value &&& 0x66 = 0x00 then MEDIA_BUS_FMT_SBGGR10_1X10
    else if get_value &&& 0x66 = 0x06 then MEDIA_BUS_FMT_SBGGR10_1X10
    else if get_value &&& 0x66 = 0x60 then MEDIA_BUS_FMT_SBGGR10_1X10
    else if get_value &&& 0x66 = 0x66 then MEDIA_BUS_FMT_SBGGR10_1X10
    else s.info.fmt.mbus_code
  (0, code, { s with bus := r.2.2 })

/-! ## Standby, temperature, identity, initialisation -/

/-- Function `sensor_s_sw_stby(sd, on_off)`; `stby_on` says whether `on_off == STBY_ON`. -/
def sensor_s_sw_stby (s : sensor_state) (stby_on : Bool) : Int × sensor_state :=
  let r := sensor_read s.bus 0x0100
  let rdval : Nat := r.2.1
  if r.1 ≠ 0 then (r.1, { s with bus := r.2.2 })
  else
    let w :=
      if stby_on then sensor_write r.2.2 0x0100 ((rdval &&& 0xfe : Nat) : Int)
      else sensor_write r.2.2 0x0100 ((rdval ||| 0x01 : Nat) : Int)
    (w.1, { s with bus := w.2 })

/-- Function `sensor_get_temp(sd, temp)`: return code, `temp->temp`, state afterwards. -/
def sensor_get_temp (s : sensor_state) : Int × Int × sensor_state :=
  let r1 := sensor_read s.bus 0x399c
  let rdval_high : Nat := r1.2.1
  let r2 := sensor_read r1.2.2 0x399d
  let rdval_low : Nat := r2.2.1
  let ret : Int := r2.1
  let rdval_total : Nat := 0 ||| (rdval_high <<< 8)
  let rdval_total : Nat := rdval_total ||| rdval_low
  let rdval_total : Int := c_div rdval_total 5
  let s1 : sensor_state := { s with bus := r2.2.2 }
  if s1.is_ht = 1 ∧ rdval_total < 70 then
    let b1 := (sensor_write s1.bus 0x57AA 0x2A).2
    let b2 := (sensor_write b1 0x57AD 0x0D).2
    (ret, rdval_total, { s1 with bus := b2, is_ht := 0 })
  else if s1.is_ht = 0 ∧ rdval_total > 71 then
    let b1 := (sensor_write s1.bus 0x57AA 0xCD).2
    let b2 := (sensor_write b1 0x57AD 0x00).2
    (ret, rdval_total, { s1 with bus := b2, is_ht := 1 })
  else (ret, rdval_total, s1)

/-- The `while` loop of `sensor_detect`; `fuel` bounds the number of iterations that
remain to be unrolled (the loop itself stops at `cnt = 5`). -/
def sensor_detect_loop : Nat → Nat → Int → cci_dev → Nat × cci_dev
  | 0, SENSOR_ID, _, d => (SENSOR_ID, d)
  | fuel + 1, SENSOR_ID, cnt, d =>
    if SENSOR_ID ≠ V4L2_IDENT_SENSOR ∧ cnt < 5 then
      let r1 := sensor_read d 0x3107
      let SENSOR_ID := SENSOR_ID ||| (r1.2.1 <<< 8)
      let r2 := sensor_read r1.2.2 0x3108
      let SENSOR_ID := SENSOR_ID ||| r2.2.1
      sensor_detect_loop fuel SENSOR_ID (cnt + 1) r2.2.2
    else (SENSOR_ID, d)

/-- Function `sensor_detect(sd)`. -/
def sensor_detect (s : sensor_state) : Int × sensor_state :=
  let SENSOR_ID : Nat := 0
  let r1 := sensor_read s.bus 0x3107
  let SENSOR_ID := SENSOR_ID ||| (r1.2.1 <<< 8)
  let r2 := sensor_read r1.2.2 0x3108
  let SENSOR_ID := SENSOR_ID ||| r2.2.1
  let l := sensor_detect_loop 5 SENSOR_ID 0 r2.2.2
  if l.1 ≠ V4L2_IDENT_SENSOR then (-ENODEV, { s with bus := l.2 })
  else (0, { s with bus := l.2 })

/-- Function `sensor_init(sd, val)`. -/
def sensor_init (s : sensor_state) : Int × sensor_state :=
  let r := sensor_detect s
  if r.1 ≠ 0 then r
  else
    (0, { r.2 with info := { r.2.info with
            focus_status := 0, low_speed := 0, width := 2560, height := 1440,
            hflip := 0, vflip := 0, gain := 0, exp := 0,
            tpf_numerator := 1, tpf_denominator := 25 } })

/-! ## Register programs and streaming -/

/-- Modelled from the spec: `sensor_write_array` of the sensor helper library, which the
file calls but does not define.  It writes each pair in order through the bus; on the
first write that fails (non-zero return code) it stops at once and reports an error,
without retrying and without undoing earlier writes. -/
def sensor_write_array (d : cci_dev) : List regval_list → Int × cci_dev
  | [] => (0, d)
  | r :: rs =>
    let w := sensor_write d r.addr r.data
    if w.1 ≠ 0 then (-1, w.2) else sensor_write_array w.2 rs

/-- Function `sensor_reg_init(info)`. -/
def sensor_reg_init (s : sensor_state) : Int × sensor_state :=
  let sensor_fmt := s.info.fmt
  let wsize := s.info.current_wins
  let a1 := sensor_write_array s.bus sensor_default_regs
  if a1.1 < 0 then (a1.1, { s with bus := a1.2 })
  else
    let b2 := (sensor_write_array a1.2 sensor_fmt.regs).2
    let b3 := match wsize.regs with
      | some regs => (sensor_write_array b2 regs).2
      | none => b2
    let b4 := match wsize.set_size with
      | some set_size => set_size b3
      | none => b3
    let info1 : sensor_info := { s.info with width := wsize.width, height := wsize.height }
    let b5 := (sensor_read b4 0x3221).2.2
    (0, { s with info := info1, sc4336_sensor_vts := wsize.vts, bus := b5 })

/-- Function `sensor_s_stream(sd, enable)`. -/
def sensor_s_stream (s : sensor_state) (enable : Int) : Int × sensor_state :=
  if enable = 0 then (0, s) else sensor_reg_init s

/-! ## Dispatch -/

/-- The control identifiers `sensor_g_ctrl` and `sensor_s_ctrl` switch on. -/
inductive ctrl_id where
  | V4L2_CID_GAIN
  | V4L2_CID_EXPOSURE
  | V4L2_CID_HFLIP
  | V4L2_CID_VFLIP
  | other

/-- Function `sensor_g_ctrl(ctrl)`: return code and `ctrl->val` when it is assigned. -/
def sensor_g_ctrl (s : sensor_state) : ctrl_id → Int × Option Int
  | ctrl_id.V4L2_CID_GAIN => ((sensor_g_gain s).1, some (sensor_g_gain s).2)
  | ctrl_id.V4L2_CID_EXPOSURE => ((sensor_g_exp s).1, some (sensor_g_exp s).2)
  | _ => (-EINVAL, none)

/-- Function `sensor_s_ctrl(ctrl)` with `val` the `s32` value `ctrl->val`. -/
def sensor_s_ctrl (s : sensor_state) (id : ctrl_id) (val : Int) : Int × sensor_state :=
  match id with
  | ctrl_id.V4L2_CID_GAIN => sensor_s_gain s val
  | ctrl_id.V4L2_CID_EXPOSURE => sensor_s_exp s (u32 val)
  | ctrl_id.V4L2_CID_HFLIP => sensor_s_hflip s val
  | ctrl_id.V4L2_CID_VFLIP => sensor_s_vflip s val
  | ctrl_id.other => (-EINVAL, s)

/-- The commands `sensor_ioctl` switches on, each with its argument. -/
inductive ioctl_cmd where
  | GET_CURRENT_WIN_CFG
  | SET_FPS
  | VIDIOC_VIN_SENSOR_EXP_GAIN (arg : sensor_exp_gain)
  | VIDIOC_VIN_SENSOR_SET_FPS (arg : sensor_fps)
  | VIDIOC_VIN_SENSOR_CFG_REQ
  | VIDIOC_VIN_GET_SENSOR_CODE
  | VIDIOC_VIN_SENSOR_GET_TEMP
  | other

/-- Function `sensor_ioctl(sd, cmd, arg)`: return code and state afterwards; `none` when the
call has no result.  `sensor_cfg_req` belongs to the helper library and touches neither
the session fields nor the bus modelled here. -/
def sensor_ioctl (s : sensor_state) : ioctl_cmd → Option (Int × sensor_state)
  | ioctl_cmd.GET_CURRENT_WIN_CFG => some (0, s)
  | ioctl_cmd.SET_FPS => some (0, s)
  | ioctl_cmd.VIDIOC_VIN_SENSOR_EXP_GAIN arg => some (sensor_s_exp_gain s arg)
  | ioctl_cmd.VIDIOC_VIN_SENSOR_SET_FPS arg => sensor_s_fps s arg
  | ioctl_cmd.VIDIOC_VIN_SENSOR_CFG_REQ => some (0, s)
  | ioctl_cmd.VIDIOC_VIN_GET_SENSOR_CODE => some (0, (sensor_get_fmt_mbus_core s).2.2)
  | ioctl_cmd.VIDIOC_VIN_SENSOR_GET_TEMP =>
    some ((sensor_get_temp s).1, (sensor_get_temp s).2.2)
  | ioctl_cmd.other => some (-EINVAL, s)

/-- One complete driver operation, as the host framework can invoke it. -/
inductive sensor_call where
  | g_ctrl (id : ctrl_id)
  | s_ctrl (id : ctrl_id) (val : Int)
  | ioctl (cmd : ioctl_cmd)
  | init
  | s_stream (enable : Int)
  | sw_stby (stby_on : Bool)

/-- The state after one complete operation; `none` when the operation has no result. -/
def run_call (s : sensor_state) : sensor_call → Option sensor_state
  | sensor_call.g_ctrl _ => some s
  | sensor_call.s_ctrl id val => some (sensor_s_ctrl s id val).2
  | sensor_call.ioctl cmd => (sensor_ioctl s cmd).map Prod.snd
  | sensor_call.init => some (sensor_init s).2
  | sensor_call.s_stream enable => some (sensor_s_stream s enable).2
  | sensor_call.sw_stby stby_on => some (sensor_s_sw_stby s stby_on).2

/-- The state after a sequence of complete operations run one after another. -/
def run_calls (s : sensor_state) : List sensor_call → Option sensor_state
  | [] => some s
  | c :: cs => (run_call s c).bind (fun s1 => run_calls s1 cs)

/-- The state `sensor_probe` leaves for a device on bus `d` whose current window is
`w`: the statics hold their C initial values (`sc4336_sensor_vts = 0`,
`sc4336_fps_change_flag = 0`, `is_ht = 1`), the session is zeroed except for the
format. -/
def probe_state (d : cci_dev) (w : sensor_win_size) : sensor_state :=
  { info := { fmt := sensor_formats_0, current_wins := w, width := 0, height := 0,
              focus_status := 0, low_speed := 0, hflip := 0, vflip := 0,
              gain := 0, exp := 0, tpf_numerator := 0, tpf_denominator := 0 },
    sc4336_sensor_vts := 0,
    sc4336_fps_change_flag := 0,
    is_ht := 1,
    bus := d }

/-- A concrete bus for worked examples: every transaction succeeds and every read
delivers `v`. -/
def quiet_bus (v : Nat) : cci_dev := { ret := fun _ => 0, val := fun _ => v, log := [] }

/-- The addresses of the register writes in a transaction log, in order. -/
def write_addrs : List cci_op → List Nat
  | [] => []
  | cci_op.wr reg _ :: l => reg :: write_addrs l
  | cci_op.rd _ :: l => write_addrs l

/-! ## Reading the transactions of one call -/

/-- The transactions `sensor_s_exp` issues for `exp_val`, read off a run that starts
from an empty log (they do not depend on the state, see `sensor_s_exp_log_eq`). -/
def exp_writes (exp_val : Nat) : List cci_op :=
  (sensor_s_exp (probe_state (quiet_bus 0) sensor_win_sizes_0) exp_val).2.bus.log

/-- The transactions `sensor_s_gain` issues for `gain_val`, read off a run that starts
from an empty log (they do not depend on the state, see `sensor_s_gain_log_eq`). -/
def gain_writes (gain_val : Int) : List cci_op :=
  (sensor_s_gain (probe_state (quiet_bus 0) sensor_win_sizes_0) gain_val).2.bus.log

/-- The value the local `sc4336_sensor_target_vts` of `sensor_s_fps` holds after the
two-armed clamp of the source, for window `w` and requested rate `fps`
(`sensor_s_fps_eq` ties it to the function). -/
def clamped_target_vts (w : sensor_win_size) (fps : Int) : Int :=
  if c_div (c_div w.pclk fps) w.hts ≤ w.vts then w.vts
  else if c_div (c_div w.pclk fps) w.hts ≥ c_div w.pclk w.hts then c_div w.pclk w.hts - 8
  else c_div (c_div w.pclk fps) w.hts

/-- A window with eleven lines per frame period, used to probe the fps clamp away from
the catalog: `hts = 1`, `pclk = 10`, `vts = 2`, hence `pclk / hts - 8 = 2`. -/
def narrow_window : sensor_win_size :=
  { sensor_win_sizes_0 with hts := 1, vts := 2, pclk := 10 }

/-! ## The gain table as the specification words it -/

/-- One bucket of the gain table as the specification lists it: the closed-open interval
`[lo, hi)` of linear gains (`hi = none` for the unbounded last bucket) and the
analog-gain code of the bucket. -/
structure gain_bucket where
  lo : Int
  hi : Option Int
  code : Int

/-- The ten contiguous buckets over `[16, ∞)` with their analog-gain codes. -/
def gain_buckets : List gain_bucket :=
  [ gain_bucket.mk 16 (some 32) 0x00, gain_bucket.mk 32 (some 64) 0x08,
    gain_bucket.mk 64 (some 128) 0x09, gain_bucket.mk 128 (some 256) 0x0b,
    gain_bucket.mk 256 (some 512) 0x0f, gain_bucket.mk 512 (some 1024) 0x1f,
    gain_bucket.mk 1024 (some 2048) 0x1f, gain_bucket.mk 2048 (some 4096) 0x1f,
    gain_bucket.mk 4096 (some 8192) 0x1f, gain_bucket.mk 8192 none 0x1f ]

/-- Whether the gain `g` lies in the bucket's interval. -/
def gain_bucket.contains (b : gain_bucket) (g : Int) : Bool :=
  decide (b.lo ≤ g) && (match b.hi with
    | some u => decide (g < u)
    | none => true)

/-- The ascending threshold table: (exclusive upper threshold, analog-gain code). -/
def gain_threshold_table : List (Int × Int) :=
  [(32, 0x00), (64, 0x08), (128, 0x09), (256, 0x0b), (512, 0x0f),
   (1024, 0x1f), (2048, 0x1f), (4096, 0x1f), (8192, 0x1f)]

/-- First-match scan over a threshold table: the code of the first entry whose
threshold exceeds `g`, and the top code `0x1f` when none does. -/
def gain_scan (g : Int) : List (Int × Int) → Int
  | [] => 0x1f
  | (t, c) :: rest => if g < t then c else gain_scan g rest

/-! ## Successive temperature calls -/

/-- The two register reads every `sensor_get_temp` call issues. -/
def temp_reads : List cci_op := [cci_op.rd 0x399c, cci_op.rd 0x399d]

/-- The calibration rewrite issued when the proxy falls below 70. -/
def temp_rewrite_low : List cci_op := [cci_op.wr 0x57AA 0x2A, cci_op.wr 0x57AD 0x0D]

/-- The calibration rewrite issued when the proxy rises above 71. -/
def temp_rewrite_high : List cci_op := [cci_op.wr 0x57AA 0xCD, cci_op.wr 0x57AD 0x00]

/-- The record of `n` successive `sensor_get_temp` calls from state `s`: for each call in
turn, the proxy it reports and the bus transactions it issues. -/
def get_temp_trace : Nat → sensor_state → List (Int × List cci_op)
  | 0, _ => []
  | n + 1, s =>
    ((sensor_get_temp s).2.1, (sensor_get_temp s).2.2.bus.log.drop s.bus.log.length)
      :: get_temp_trace n (sensor_get_temp s).2.2

/-- The state after `n` successive `sensor_get_temp` calls from state `s`. -/
def get_temp_iter : Nat → sensor_state → sensor_state
  | 0, s => s
  | n + 1, s => get_temp_iter n (sensor_get_temp s).2.2

/-- A bus for worked examples whose reads deliver the bytes of `vals` in turn, indexed by
transaction number, and 0 afterwards; every transaction succeeds. -/
def script_bus (vals : List Nat) : cci_dev :=
  { ret := fun _ => 0, val := fun n => vals.getD n 0, log := [] }

/-! ## Identity check as the specification words it -/

/-- The identity word after `k` read pairs, in the specification's words: the bitwise OR
of `(h_i << 8) | l_i` over the pairs `i = 1..k`, where the bytes of pair `i` are the
values `val` delivers at transactions `n0 + 2(i-1)` and `n0 + 2(i-1) + 1`. -/
def id_acc (val : Nat → Nat) (n0 : Nat) : Nat → Nat
  | 0 => 0
  | k + 1 => id_acc val n0 k ||| ((val (n0 + 2 * k) <<< 8) ||| val (n0 + 2 * k + 1))

/-- The transactions of `k` read pairs of the identity registers. -/
def id_reads : Nat → List cci_op
  | 0 => []
  | k + 1 => id_reads k ++ [cci_op.rd 0x3107, cci_op.rd 0x3108]

/-- A bus for worked examples on which the transactions selected by `bad` (by
transaction number) fail with `-EIO` (-5) and all others succeed; reads deliver 0. -/
def fault_bus (bad : Nat → Bool) : cci_dev :=
  { ret := fun n => if bad n then -5 else 0, val := fun _ => 0, log := [] }

/-- The writes that applying a register program issues, in order. -/
def program_writes (regs : List regval_list) : List cci_op :=
  regs.map (fun r => cci_op.wr r.addr r.data)

/-- The value the local `gaindiglow` of `sensor_s_gain` holds after the if/else chain,
before the `(unsigned char)` cast at the write to 0x3e07 (`sensor_s_gain_dlow` ties it to
the function). -/
def gaindiglow_value (gain_val : Int) : Int :=
  if gain_val < 32 then s32 (gain_val <<< (3 : Int))
  else if gain_val < 64 then c_div (c_div (s32 (gain_val <<< (3 : Int)) * 100) 200) 1
  else if gain_val < 128 then c_div (c_div (s32 (gain_val <<< (3 : Int)) * 100) 200) 2
  else if gain_val < 256 then c_div (c_div (s32 (gain_val <<< (3 : Int)) * 100) 200) 4
  else if gain_val < 512 then c_div (c_div (s32 (gain_val <<< (3 : Int)) * 100) 200) 8
  else if gain_val < 1024 then c_div (c_div (s32 (gain_val <<< (3 : Int)) * 100) 200) 16
  else if gain_val < 2048 then c_div (c_div (s32 (gain_val <<< (3 : Int)) * 100) 200) 32
  else if gain_val < 4096 then c_div (c_div (s32 (gain_val <<< (3 : Int)) * 100) 200) 64
  else if gain_val < 8192 then c_div (c_div (s32 (gain_val <<< (3 : Int)) * 100) 200) 128
  else 0xfc

/-! ## Bit-level helper lemmas -/

theorem and_ff_eq_mod (x : Nat) : 0xff &&& x = x % 256 := by
  rw [Nat.and_comm]
  exact Nat.and_pow_two_sub_one_eq_mod x 8

theorem and_0f_eq_mod (x : Nat) : 0x0f &&& x = x % 16 := by
  rw [Nat.and_comm]
  exact Nat.and_pow_two_sub_one_eq_mod x 4

set_option maxRecDepth 100000 in
theorem byte_and_f0 : ∀ r : Nat, r < 256 → 0xf0 &&& r = r - r % 16 := by
  decide

theorem and_f0_eq (x : Nat) : 0xf0 &&& x = x % 256 - x % 16 := by
  have h1 : (0xf0 : Nat) = 0xf0 &&& 0xff := by decide
  rw [h1, Nat.and_assoc, and_ff_eq_mod, byte_and_f0 _ (Nat.mod_lt _ (by norm_num))]
  omega

theorem or_eq_add_of_dvd (a b i : Nat) (ha : 2 ^ i ∣ a) (hb : b < 2 ^ i) :
    a ||| b = a + b := by
  obtain ⟨k, rfl⟩ := ha
  exact (Nat.mul_add_lt_is_or hb k).symm

/-- The transaction log after `sensor_s_exp`: three writes, low, mid, high. -/
theorem sensor_s_exp_log (s : sensor_state) (e : Nat) :
    (sensor_s_exp s e).2.bus.log = s.bus.log ++
      [cci_op.wr 0x3e02 (uchar (0xf0 &&& (e <<< 0)) : Nat),
       cci_op.wr 0x3e01 (uchar (0xff &&& (e >>> 8)) : Nat),
       cci_op.wr 0x3e00 (uchar (0x0f &&& (e >>> 16)) : Nat)] := by
  simp [sensor_s_exp, sensor_write]

/-! ## Exposure split (C1) -/

/-- C1: for every exposure `e` with `1 ≤ e ≤ 0xFFFFF`, `sensor_s_exp` writes three values
`explow` (to 0x3e02), `expmid` (to 0x3e01), `exphigh` (to 0x3e00) that each fit in eight
bits; the low nibble of `explow` is zero; and `(exphigh << 16) | (expmid << 8) | explow`
is `e` with its bottom four bits cleared, hence a value `r` with `0 ≤ e - r ≤ 15`. -/
theorem C1_exposure_split_roundtrip (s : sensor_state) (e : Nat)
    (h1 : 1 ≤ e) (h2 : e ≤ 0xFFFFF) :
    ∃ exphigh expmid explow : Nat,
      (sensor_s_exp s e).2.bus.log = s.bus.log ++
        [cci_op.wr 0x3e02 explow, cci_op.wr 0x3e01 expmid, cci_op.wr 0x3e00 exphigh] ∧
      exphigh < 2 ^ 8 ∧ expmid < 2 ^ 8 ∧ explow < 2 ^ 8 ∧
      explow &&& 0x0f = 0 ∧
      ((exphigh <<< 16) ||| (expmid <<< 8) ||| explow) = (e >>> 4) <<< 4 ∧
      ((exphigh <<< 16) ||| (expmid <<< 8) ||| explow) ≤ e ∧
      e - ((exphigh <<< 16) ||| (expmid <<< 8) ||| explow) ≤ 15 := by
  refine ⟨uchar (0x0f &&& (e >>> 16)), uchar (0xff &&& (e >>> 8)),
    uchar (0xf0 &&& (e <<< 0)), sensor_s_exp_log s e, ?_⟩
  have hlow : uchar (0xf0 &&& (e <<< 0)) = e % 256 - e % 16 := by
    simp only [uchar, Nat.shiftLeft_zero, and_f0_eq]; omega
  have hmid : uchar (0xff &&& (e >>> 8)) = e / 256 % 256 := by
    simp only [uchar, and_ff_eq_mod, Nat.shiftRight_eq_div_pow]; omega
  have hhigh : uchar (0x0f &&& (e >>> 16)) = e / 65536 := by
    simp only [uchar, and_0f_eq_mod, Nat.shiftRight_eq_div_pow]; omega
  have hnib : (e % 256 - e % 16) &&& 0x0f = 0 := by
    have := and_0f_eq_mod (e % 256 - e % 16)
    rw [Nat.and_comm] at this
    rw [this]; omega
  have hor1 : ((e / 65536) <<< 16) ||| ((e / 256 % 256) <<< 8)
      = e / 65536 * 65536 + e / 256 % 256 * 256 := by
    rw [Nat.shiftLeft_eq, Nat.shiftLeft_eq]
    exact or_eq_add_of_dvd _ _ 16 (Dvd.intro_left _ rfl) (by omega)
  have hor2 : (e / 65536 * 65536 + e / 256 % 256 * 256) ||| (e % 256 - e % 16)
      = e / 65536 * 65536 + e / 256 % 256 * 256 + (e % 256 - e % 16) :=
    or_eq_add_of_dvd _ _ 8 (by omega) (by omega)
  rw [hlow, hmid, hhigh, hor1, hor2, Nat.shiftRight_eq_div_pow, Nat.shiftLeft_eq]
  refine ⟨by omega, by omega, by omega, hnib, by omega, by omega, by omega⟩

/-- C1 at `e = 0x5D47`: the registers receive 0x40, 0x5D, 0x00 and reconstitute 0x5D40. -/
theorem C1_exposure_split_roundtrip_witness :
    (1 ≤ 0x5D47 ∧ 0x5D47 ≤ 0xFFFFF) ∧
    ∃ exphigh expmid explow : Nat,
      (sensor_s_exp (probe_state (quiet_bus 0) sensor_win_sizes_0) 0x5D47).2.bus.log =
        (probe_state (quiet_bus 0) sensor_win_sizes_0).bus.log ++
        [cci_op.wr 0x3e02 explow, cci_op.wr 0x3e01 expmid, cci_op.wr 0x3e00 exphigh] ∧
      exphigh < 2 ^ 8 ∧ expmid < 2 ^ 8 ∧ explow < 2 ^ 8 ∧
      explow &&& 0x0f = 0 ∧
      ((exphigh <<< 16) ||| (expmid <<< 8) ||| explow) = (0x5D47 >>> 4) <<< 4 ∧
      ((exphigh <<< 16) ||| (expmid <<< 8) ||| explow) ≤ 0x5D47 ∧
      0x5D47 - ((exphigh <<< 16) ||| (expmid <<< 8) ||| explow) ≤ 15 :=
  ⟨by decide, C1_exposure_split_roundtrip _ 0x5D47 (by decide) (by decide)⟩

theorem shl3_eq (x : Int) : x <<< (3 : Int) = x * 8 := by
  have := Int.shiftLeft_eq_mul_pow x 3
  simpa using this

theorem s32_of_range (x : Int) (h1 : -2 ^ 31 ≤ x) (h2 : x < 2 ^ 31) : s32 x = x := by
  unfold s32; omega

theorem c_div_of_nonneg (a b : Int) (ha : 0 ≤ a) (hb : 0 ≤ b) : c_div a b = a / b :=
  Int.tdiv_eq_ediv ha hb

theorem uchar_of_int_of_byte (x : Int) (h1 : 0 ≤ x) (h2 : x < 256) :
    ((uchar_of_int x : Nat) : Int) = x := by
  unfold uchar_of_int; omega

/-- The scaled digital gain of one bucket, in exact integer arithmetic. -/
theorem gain_scale_eq (g d : Int) (h1 : 0 ≤ g) (h2 : g < 8192) (hd : 0 < d) :
    c_div (c_div (s32 (g <<< (3 : Int)) * 100) 200) d = g * 8 * 100 / 200 / d := by
  rw [shl3_eq, s32_of_range _ (by omega) (by omega)]
  rw [c_div_of_nonneg (g * 8 * 100) 200 (by omega) (by omega)]
  rw [c_div_of_nonneg _ d (by omega) (by omega)]

theorem sensor_s_gain_log (s : sensor_state) (g : Int) :
    (sensor_s_gain s g).2.bus.log = s.bus.log ++
      [cci_op.wr 0x3e09 (uchar_of_int
        (if g < 32 then (0x00 : Int) else if g < 64 then 0x08 else if g < 128 then 0x09
         else if g < 256 then 0x0b else if g < 512 then 0x0f else 0x1f) : Nat),
       cci_op.wr 0x3e07 (uchar_of_int
        (if g < 32 then s32 (g <<< (3 : Int))
         else if g < 64 then c_div (c_div (s32 (g <<< (3 : Int)) * 100) 200) 1
         else if g < 128 then c_div (c_div (s32 (g <<< (3 : Int)) * 100) 200) 2
         else if g < 256 then c_div (c_div (s32 (g <<< (3 : Int)) * 100) 200) 4
         else if g < 512 then c_div (c_div (s32 (g <<< (3 : Int)) * 100) 200) 8
         else if g < 1024 then c_div (c_div (s32 (g <<< (3 : Int)) * 100) 200) 16
         else if g < 2048 then c_div (c_div (s32 (g <<< (3 : Int)) * 100) 200) 32
         else if g < 4096 then c_div (c_div (s32 (g <<< (3 : Int)) * 100) 200) 64
         else if g < 8192 then c_div (c_div (s32 (g <<< (3 : Int)) * 100) 200) 128
         else 0xfc) : Nat),
       cci_op.wr 0x3e06 (uchar_of_int
        (if g < 1024 then (0x00 : Int) else if g < 2048 then 0x01
         else if g < 4096 then 0x03 else 0x07) : Nat)] := by
  have hr : g < 32 ∨ (32 ≤ g ∧ g < 64) ∨ (64 ≤ g ∧ g < 128) ∨ (128 ≤ g ∧ g < 256) ∨
      (256 ≤ g ∧ g < 512) ∨ (512 ≤ g ∧ g < 1024) ∨ (1024 ≤ g ∧ g < 2048) ∨
      (2048 ≤ g ∧ g < 4096) ∨ (4096 ≤ g ∧ g < 8192) ∨ 8192 ≤ g := by omega
  simp only [sensor_s_gain, sensor_write, List.append_assoc, List.singleton_append,
    List.cons_append, List.nil_append]
  rcases hr with h | h | h | h | h | h | h | h | h | h <;>
    simp (disch := omega) only [if_pos, if_neg]

theorem gain_ranges (g : Int) (h : 16 ≤ g) :
    (16 ≤ g ∧ g < 32) ∨ (32 ≤ g ∧ g < 64) ∨ (64 ≤ g ∧ g < 128) ∨ (128 ≤ g ∧ g < 256) ∨
    (256 ≤ g ∧ g < 512) ∨ (512 ≤ g ∧ g < 1024) ∨ (1024 ≤ g ∧ g < 2048) ∨
    (2048 ≤ g ∧ g < 4096) ∨ (4096 ≤ g ∧ g < 8192) ∨ 8192 ≤ g := by omega

/-- Membership in the bucket list, spelled out. -/
theorem mem_gain_buckets (b : gain_bucket) :
    b ∈ gain_buckets ↔
      b = gain_bucket.mk 16 (some 32) 0x00 ∨ b = gain_bucket.mk 32 (some 64) 0x08 ∨
      b = gain_bucket.mk 64 (some 128) 0x09 ∨ b = gain_bucket.mk 128 (some 256) 0x0b ∨
      b = gain_bucket.mk 256 (some 512) 0x0f ∨ b = gain_bucket.mk 512 (some 1024) 0x1f ∨
      b = gain_bucket.mk 1024 (some 2048) 0x1f ∨ b = gain_bucket.mk 2048 (some 4096) 0x1f ∨
      b = gain_bucket.mk 4096 (some 8192) 0x1f ∨ b = gain_bucket.mk 8192 none 0x1f := by
  simp [gain_buckets]

/-- The analog-gain code of the if/else chain, for gains from 16 up. -/
theorem analog_code_eq_scan (g : Int) :
    (if g < 32 then (0x00 : Int) else if g < 64 then 0x08 else if g < 128 then 0x09
     else if g < 256 then 0x0b else if g < 512 then 0x0f else 0x1f)
      = gain_scan g gain_threshold_table := by
  simp only [gain_scan, gain_threshold_table]
  by_cases h1 : g < 32
  · simp [h1]
  by_cases h2 : g < 64
  · simp [h1, h2]
  by_cases h3 : g < 128
  · simp [h1, h2, h3]
  by_cases h4 : g < 256
  · simp [h1, h2, h3, h4]
  by_cases h5 : g < 512
  · simp [h1, h2, h3, h4, h5]
  simp [h1, h2, h3, h4, h5]

/-- Every bucket that contains `g` carries the code the scan returns, and one does. -/
theorem bucket_code_eq_scan (g : Int) (h : 16 ≤ g) :
    (∃ b, b ∈ gain_buckets ∧ b.contains g = true) ∧
    (∀ b, b ∈ gain_buckets → b.contains g = true →
      b.code = gain_scan g gain_threshold_table) ∧
    (∀ b c, b ∈ gain_buckets → c ∈ gain_buckets → b.contains g = true →
      c.contains g = true → b = c) := by
  refine ⟨?_, ?_, ?_⟩
  · rcases gain_ranges g h with h | h | h | h | h | h | h | h | h | h
    · exact ⟨_, (mem_gain_buckets _).2 (Or.inl rfl), by simp [gain_bucket.contains]; omega⟩
    · exact ⟨_, (mem_gain_buckets _).2 (Or.inr (Or.inl rfl)),
        by simp [gain_bucket.contains]; omega⟩
    · exact ⟨_, (mem_gain_buckets _).2 (Or.inr (Or.inr (Or.inl rfl))),
        by simp [gain_bucket.contains]; omega⟩
    · exact ⟨_, (mem_gain_buckets _).2 (Or.inr (Or.inr (Or.inr (Or.inl rfl)))),
        by simp [gain_bucket.contains]; omega⟩
    · exact ⟨_, (mem_gain_buckets _).2 (Or.inr (Or.inr (Or.inr (Or.inr (Or.inl rfl))))),
        by simp [gain_bucket.contains]; omega⟩
    · exact ⟨_, (mem_gain_buckets _).2
        (Or.inr (Or.inr (Or.inr (Or.inr (Or.inr (Or.inl rfl)))))),
        by simp [gain_bucket.contains]; omega⟩
    · exact ⟨_, (mem_gain_buckets _).2
        (Or.inr (Or.inr (Or.inr (Or.inr (Or.inr (Or.inr (Or.inl rfl))))))),
        by simp [gain_bucket.contains]; omega⟩
    · exact ⟨_, (mem_gain_buckets _).2
        (Or.inr (Or.inr (Or.inr (Or.inr (Or.inr (Or.inr (Or.inr (Or.inl rfl)))))))),
        by simp [gain_bucket.contains]; omega⟩
    · exact ⟨_, (mem_gain_buckets _).2
        (Or.inr (Or.inr (Or.inr (Or.inr (Or.inr (Or.inr (Or.inr (Or.inr (Or.inl rfl))))))))),
        by simp [gain_bucket.contains]; omega⟩
    · exact ⟨_, (mem_gain_buckets _).2
        (Or.inr (Or.inr (Or.inr (Or.inr (Or.inr (Or.inr (Or.inr (Or.inr (Or.inr rfl))))))))),
        by simp [gain_bucket.contains]; omega⟩
  · intro b hb hc
    rw [← analog_code_eq_scan]
    rcases (mem_gain_buckets b).1 hb with e | e | e | e | e | e | e | e | e | e <;>
      subst e <;> simp [gain_bucket.contains] at hc <;>
      simp (disch := omega) only [if_pos, if_neg]
  · intro b c hb hc hbg hcg
    rcases (mem_gain_buckets b).1 hb with e | e | e | e | e | e | e | e | e | e <;>
      subst e <;> simp [gain_bucket.contains] at hbg <;>
      rcases (mem_gain_buckets c).1 hc with e | e | e | e | e | e | e | e | e | e <;>
      subst e <;> simp [gain_bucket.contains] at hcg <;>
      first | rfl | (exfalso; omega)

/-! ## Analog-gain bucket (C2) -/

/-- C2: for every gain `g ≥ 16` exactly one of the ten closed-open intervals
`[16,32), [32,64), …, [4096,8192), [8192,∞)` contains `g`; the analog-gain code that
`sensor_s_gain` writes to 0x3e09 is the code of that interval
(0x00, 0x08, 0x09, 0x0b, 0x0f, 0x1f, 0x1f, 0x1f, 0x1f, 0x1f); and it is the result of a
first-match scan over the ascending threshold table (32, 64, …, 8192, else). -/
theorem C2_analog_gain_bucket (s : sensor_state) (g : Int) (h : 16 ≤ g) :
    (∃! b, b ∈ gain_buckets ∧ b.contains g = true) ∧
    (∀ b, b ∈ gain_buckets → b.contains g = true →
      ∃ dl dh : Int, (sensor_s_gain s g).2.bus.log = s.bus.log ++
        [cci_op.wr 0x3e09 b.code, cci_op.wr 0x3e07 dl, cci_op.wr 0x3e06 dh]) ∧
    (∃ dl dh : Int, (sensor_s_gain s g).2.bus.log = s.bus.log ++
        [cci_op.wr 0x3e09 (gain_scan g gain_threshold_table),
         cci_op.wr 0x3e07 dl, cci_op.wr 0x3e06 dh]) := by
  obtain ⟨⟨b0, hb0, hc0⟩, hcode, huniq⟩ := bucket_code_eq_scan g h
  have hlog : ∃ dl dh : Int, (sensor_s_gain s g).2.bus.log = s.bus.log ++
      [cci_op.wr 0x3e09 (gain_scan g gain_threshold_table),
       cci_op.wr 0x3e07 dl, cci_op.wr 0x3e06 dh] := by
    have key : ((uchar_of_int
        (if g < 32 then (0x00 : Int) else if g < 64 then 0x08 else if g < 128 then 0x09
         else if g < 256 then 0x0b else if g < 512 then 0x0f else 0x1f) : Nat) : Int)
        = gain_scan g gain_threshold_table := by
      rw [uchar_of_int_of_byte]
      · exact analog_code_eq_scan g
      · split_ifs <;> omega
      · split_ifs <;> omega
    rw [sensor_s_gain_log, key]
    exact ⟨_, _, rfl⟩
  refine ⟨⟨b0, ⟨hb0, hc0⟩, fun c hc => huniq c b0 hc.1 hb0 hc.2 hc0⟩, ?_, hlog⟩
  intro b hb hc
  rw [hcode b hb hc]
  exact hlog

/-- C2 at `g = 32`: the code written to 0x3e09 is 0x08. -/
theorem C2_analog_gain_bucket_witness :
    (16 : Int) ≤ 32 ∧
    ∃ dl dh : Int,
      (sensor_s_gain (probe_state (quiet_bus 0) sensor_win_sizes_0) 32).2.bus.log =
        [cci_op.wr 0x3e09 0x08, cci_op.wr 0x3e07 dl, cci_op.wr 0x3e06 dh] :=
  ⟨by decide,
   (C2_analog_gain_bucket (probe_state (quiet_bus 0) sensor_win_sizes_0) 32 (by decide)).2.2⟩

/-! ## Digital-gain bytes (C3) -/

/-- The digital-gain low value of the chain for `32 ≤ g < 8192` with divisor `d`:
it is `g * 4 / d` and the `(unsigned char)` cast leaves it alone when it is a byte. -/
theorem digital_low_bucket (g d : Int) (h1 : 32 ≤ g) (h2 : g < 8192) (hd : 0 < d)
    (hb : g * 4 / d < 256) :
    ((uchar_of_int (c_div (c_div (s32 (g <<< (3 : Int)) * 100) 200) d) : Nat) : Int)
      = c_div (c_div ((g <<< (3 : Int)) * 100) 200) d := by
  have e1 : s32 (g <<< (3 : Int)) = g <<< (3 : Int) := by
    rw [shl3_eq]; exact s32_of_range _ (by omega) (by omega)
  have e2 : g * 8 * 100 / 200 = g * 4 := by omega
  rw [e1]
  have e3 := gain_scale_eq g d (by omega) h2 hd
  rw [e1] at e3
  rw [e3, e2]
  exact uchar_of_int_of_byte _ (Int.ediv_nonneg (by omega) (by omega)) hb

/-- C3: for every gain `g ≥ 16` the digital-gain bytes `sensor_s_gain` writes are:
digital-low (0x3e07) `= g << 3` for `g < 32`; `= ((g << 3) * 100 / 200) / 2^(k-1)` in C
integer division for `g` in `[16·2^k, 16·2^(k+1))`, `k = 1..8`; `= 0xFC` for `g ≥ 8192`;
digital-high (0x3e06) `= 0x00` for `g < 1024`, `0x01` on `[1024,2048)`, `0x03` on
`[2048,4096)`, `0x07` for `g ≥ 4096`. -/
theorem C3_digital_gain_bytes (s : sensor_state) (g : Int) (h : 16 ≤ g) :
    ∃ a dl dh : Int,
      (sensor_s_gain s g).2.bus.log = s.bus.log ++
        [cci_op.wr 0x3e09 a, cci_op.wr 0x3e07 dl, cci_op.wr 0x3e06 dh] ∧
      (g < 32 → dl = g <<< (3 : Int)) ∧
      (∀ k : Nat, 1 ≤ k → k ≤ 8 → 16 * 2 ^ k ≤ g → g < 16 * 2 ^ (k + 1) →
        dl = c_div (c_div ((g <<< (3 : Int)) * 100) 200) (2 ^ (k - 1))) ∧
      (8192 ≤ g → dl = 0xFC) ∧
      (g < 1024 → dh = 0x00) ∧
      (1024 ≤ g → g < 2048 → dh = 0x01) ∧
      (2048 ≤ g → g < 4096 → dh = 0x03) ∧
      (4096 ≤ g → dh = 0x07) := by
  refine ⟨_, _, _, sensor_s_gain_log s g, ?_, ?_, ?_, ?_, ?_, ?_, ?_⟩
  · intro h32
    rw [if_pos h32, shl3_eq, s32_of_range _ (by omega) (by omega)]
    exact uchar_of_int_of_byte _ (by omega) (by omega)
  · intro k hk1 hk8 hlo hhi
    interval_cases k <;> norm_num at hlo hhi ⊢ <;>
      simp (disch := omega) only [if_pos, if_neg] <;>
      exact digital_low_bucket g _ (by omega) (by omega) (by omega) (by omega)
  · intro h8
    simp (disch := omega) only [if_pos, if_neg]
    rfl
  · intro h1
    simp (disch := omega) only [if_pos, if_neg]
    rfl
  · intro h1 h2
    simp (disch := omega) only [if_pos, if_neg]
    rfl
  · intro h1 h2
    simp (disch := omega) only [if_pos, if_neg]
    rfl
  · intro h1
    simp (disch := omega) only [if_pos, if_neg]
    rfl

/-- C3 at `g = 100` (bucket `k = 2`, divisor 2): digital-low is 0xC8, digital-high 0. -/
theorem C3_digital_gain_bytes_witness :
    (16 : Int) ≤ 100 ∧
    ∃ a dl dh : Int,
      (sensor_s_gain (probe_state (quiet_bus 0) sensor_win_sizes_0) 100).2.bus.log =
        [cci_op.wr 0x3e09 a, cci_op.wr 0x3e07 dl, cci_op.wr 0x3e06 dh] ∧
      dl = 0xC8 ∧ dh = 0x00 := by
  refine ⟨by decide, ?_⟩
  obtain ⟨a, dl, dh, hlog, -, hk, -, h0, -⟩ :=
    C3_digital_gain_bytes (probe_state (quiet_bus 0) sensor_win_sizes_0) 100 (by decide)
  refine ⟨a, dl, dh, hlog, ?_, h0 (by decide)⟩
  rw [hk 2 (by decide) (by decide) (by decide) (by decide)]
  decide

/-! ## Combined exposure/gain call: state and log -/

theorem sensor_s_exp_log_eq (t : sensor_state) (e : Nat) :
    (sensor_s_exp t e).2.bus.log = t.bus.log ++ exp_writes e := by
  simp [exp_writes, sensor_s_exp, sensor_write, probe_state, quiet_bus]

theorem sensor_s_gain_log_eq (t : sensor_state) (g : Int) :
    (sensor_s_gain t g).2.bus.log = t.bus.log ++ gain_writes g := by
  simp [gain_writes, sensor_s_gain, sensor_write, probe_state, quiet_bus]

theorem write_addrs_exp_writes (e : Nat) :
    write_addrs (exp_writes e) = [0x3e02, 0x3e01, 0x3e00] := by
  simp [exp_writes, sensor_s_exp, sensor_write, probe_state, quiet_bus, write_addrs]

theorem write_addrs_gain_writes (g : Int) :
    write_addrs (gain_writes g) = [0x3e09, 0x3e07, 0x3e06] := by
  simp [gain_writes, sensor_s_gain, sensor_write, probe_state, quiet_bus, write_addrs]

/-- The whole effect of `sensor_s_exp_gain` when no fps change is in progress. -/
theorem sensor_s_exp_gain_idle (s : sensor_state) (eg : sensor_exp_gain)
    (hf : s.sc4336_fps_change_flag = 0) :
    sensor_s_exp_gain s eg =
      (0, { s with
        bus := { s.bus with log := (s.bus.log ++
          [cci_op.wr 0x320f (Int.land
              (if (min eg.exp_val 0xfffff) >>> 4 > s.sc4336_sensor_vts - 8
               then (min eg.exp_val 0xfffff) >>> 4 + 8 else s.sc4336_sensor_vts) 0xff),
           cci_op.wr 0x320e
              ((if (min eg.exp_val 0xfffff) >>> 4 > s.sc4336_sensor_vts - 8
                then (min eg.exp_val 0xfffff) >>> 4 + 8 else s.sc4336_sensor_vts) >>> 8)]
          ++ exp_writes (u32 (min eg.exp_val 0xfffff))
          ++ gain_writes (max eg.gain_val 16)) },
        info := { s.info with exp := min eg.exp_val 0xfffff, gain := max eg.gain_val 16 } }) := by
  have he : (if eg.exp_val > 0xfffff then (0xfffff : Int) else eg.exp_val)
      = min eg.exp_val 0xfffff := by
    split_ifs <;> omega
  have hg : (if eg.gain_val < 1 * 16 then (16 : Int) else eg.gain_val)
      = max eg.gain_val 16 := by
    split_ifs <;> omega
  simp only [sensor_s_exp_gain, he, hg, hf, if_true]
  simp [exp_writes, gain_writes, sensor_s_exp, sensor_s_gain, sensor_write, probe_state,
    quiet_bus]

/-- The whole effect of `sensor_s_exp_gain` while an fps change is in progress. -/
theorem sensor_s_exp_gain_busy (s : sensor_state) (eg : sensor_exp_gain)
    (hf : s.sc4336_fps_change_flag ≠ 0) :
    sensor_s_exp_gain s eg =
      (0, { s with
        bus := { s.bus with log := (s.bus.log
          ++ exp_writes (u32 (min eg.exp_val 0xfffff))
          ++ gain_writes (max eg.gain_val 16)) },
        info := { s.info with exp := min eg.exp_val 0xfffff, gain := max eg.gain_val 16 } }) := by
  have he : (if eg.exp_val > 0xfffff then (0xfffff : Int) else eg.exp_val)
      = min eg.exp_val 0xfffff := by
    split_ifs <;> omega
  have hg : (if eg.gain_val < 1 * 16 then (16 : Int) else eg.gain_val)
      = max eg.gain_val 16 := by
    split_ifs <;> omega
  simp only [sensor_s_exp_gain, he, hg, hf, if_false]
  simp [exp_writes, gain_writes, sensor_s_exp, sensor_s_gain, sensor_write, probe_state,
    quiet_bus]

/-! ## Frame-length policy (C4) -/

/-- C4: for every exposure `e ≤ 0xFFFFF` and every current vertical total `V`, when no
fps change is in progress (guard flag 0), `sensor_s_exp_gain` computes
`shutter = e >> 4` and `frame_length = shutter + 8` if `shutter > V - 8`, else
`frame_length = V` (so `frame_length = max(V, shutter + 8)`), and its first two bus
transactions write `frame_length & 0xff` to 0x320f and then `frame_length >> 8` to
0x320e. -/
theorem C4_frame_length_policy (s : sensor_state) (eg : sensor_exp_gain)
    (he : eg.exp_val ≤ 0xFFFFF) (hf : s.sc4336_fps_change_flag = 0) :
    ∃ shutter frame_length : Int,
      shutter = eg.exp_val >>> 4 ∧
      frame_length =
        (if shutter > s.sc4336_sensor_vts - 8 then shutter + 8 else s.sc4336_sensor_vts) ∧
      frame_length = max s.sc4336_sensor_vts (shutter + 8) ∧
      (sensor_s_exp_gain s eg).2.bus.log = s.bus.log ++
        [cci_op.wr 0x320f (Int.land frame_length 0xff),
         cci_op.wr 0x320e (frame_length >>> 8)] ++
        exp_writes (u32 eg.exp_val) ++ gain_writes (max eg.gain_val 16) := by
  refine ⟨eg.exp_val >>> 4, _, rfl, rfl, ?_, ?_⟩
  · split_ifs <;> omega
  · rw [sensor_s_exp_gain_idle s eg hf, min_eq_left he]

/-- C4 at `e = 0x5D40`, `V = 1800`: shutter 1492 stays below `V - 8`, the frame length is
1800 = 0x0708, written as 0x08 to 0x320f and then 0x07 to 0x320e. -/
theorem C4_frame_length_policy_witness :
    ((0x5D40 : Int) ≤ 0xFFFFF ∧ (0 : Int) = 0) ∧
    ∃ rest : List cci_op,
      (sensor_s_exp_gain
        { probe_state (quiet_bus 0) sensor_win_sizes_0 with sc4336_sensor_vts := 1800 }
        (sensor_exp_gain.mk 0x5D40 32)).2.bus.log =
        [cci_op.wr 0x320f 0x08, cci_op.wr 0x320e 0x07] ++ rest := by
  refine ⟨⟨by decide, rfl⟩, ?_⟩
  obtain ⟨sh, fl, hsh, hfl, -, hlog⟩ := C4_frame_length_policy
    { probe_state (quiet_bus 0) sensor_win_sizes_0 with sc4336_sensor_vts := 1800 }
    (sensor_exp_gain.mk 0x5D40 32) (by decide) rfl
  have h1 : sh = 1492 := by rw [hsh]; decide
  have h2 : fl = 1800 := by rw [hfl, h1]; decide
  rw [h2] at hlog
  exact ⟨_, hlog⟩

/-! ## Frame rate (C5) -/

/-- The whole effect of `sensor_s_fps` when both divisors are non-zero. -/
theorem sensor_s_fps_eq (s : sensor_state) (fps : sensor_fps)
    (h1 : fps.fps ≠ 0) (h2 : s.info.current_wins.hts ≠ 0) :
    sensor_s_fps s fps =
      some (0, { s with
        sc4336_sensor_vts := clamped_target_vts s.info.current_wins fps.fps,
        sc4336_fps_change_flag := 0,
        bus := { s.bus with log := (s.bus.log ++
          [cci_op.wr 0x320f (Int.land (clamped_target_vts s.info.current_wins fps.fps) 0xff),
           cci_op.wr 0x320e (clamped_target_vts s.info.current_wins fps.fps >>> 8)]) } }) := by
  simp [sensor_s_fps, h1, h2, clamped_target_vts, sensor_write]

/-- Halving a quotient: dividing by a rate of at least two and then by the line length
gives at most half of the lines per second. -/
theorem quotient_halves (a f h : Int) (ha : 0 ≤ a) (hf : 2 ≤ f) (hh : 1 ≤ h) :
    2 * (a / f / h) ≤ a / h := by
  have hq0 : 0 ≤ a / f := Int.ediv_nonneg ha (by omega)
  have hq : 0 ≤ a / f / h := Int.ediv_nonneg hq0 (by omega)
  have e1 : a / f / h * h ≤ a / f := Int.ediv_mul_le _ (by omega)
  have e2 : a / f * f ≤ a := Int.ediv_mul_le _ (by omega)
  have e3 : a / f * 2 ≤ a / f * f := by nlinarith
  apply Int.le_ediv_of_mul_le (by omega)
  nlinarith

/-- The clamp of `sensor_s_fps` on non-negative operands, in floor division. -/
theorem clamped_target_vts_bounds (w : sensor_win_size) (fps : Int)
    (hh : 1 ≤ w.hts) (hf : 1 ≤ fps) (hP : 15 ≤ c_div w.pclk w.hts)
    (hv : w.vts ≤ c_div w.pclk w.hts - 8) :
    w.vts ≤ clamped_target_vts w fps ∧
    clamped_target_vts w fps ≤ c_div w.pclk w.hts - 8 := by
  have ha : 0 ≤ w.pclk := by
    by_contra hneg
    have hneg : w.pclk < 0 := by omega
    have h0 : 0 ≤ Int.tdiv (-w.pclk) w.hts := Int.tdiv_nonneg (by omega) (by omega)
    rw [Int.neg_tdiv] at h0
    unfold c_div at hP
    omega
  have eP : c_div w.pclk w.hts = w.pclk / w.hts := c_div_of_nonneg _ _ ha (by omega)
  have e1 : c_div w.pclk fps = w.pclk / fps := c_div_of_nonneg _ _ ha (by omega)
  have hq0 : 0 ≤ w.pclk / fps := Int.ediv_nonneg ha (by omega)
  have e2 : c_div (w.pclk / fps) w.hts = w.pclk / fps / w.hts :=
    c_div_of_nonneg _ _ hq0 (by omega)
  unfold clamped_target_vts
  rw [eP] at hP hv
  rw [e1, e2, eP]
  split_ifs with c1 c2
  · omega
  · omega
  · refine ⟨by omega, ?_⟩
    rcases Int.lt_or_le fps 2 with hlt | hge
    · have : fps = 1 := by omega
      subst this
      simp at c2
    · have := quotient_halves w.pclk fps w.hts ha hge hh
      omega

/-- C5 as stated fails: on the window `hts = 1`, `pclk = 10`, `vts = 2` (which meets
`hts ≥ 1` and `vts ≤ pclk/hts - 8 = 2`) a request of 2 fps gives the target
`10 / 2 / 1 = 5`; it is above `vts` and below `pclk / hts = 10`, so neither arm of the
clamp fires, 5 is stored and written, and 5 exceeds `pclk/hts - 8 = 2`. -/
theorem C5_fps_clamp_counterexample :
    (1 ≤ narrow_window.hts ∧
      narrow_window.vts ≤ c_div narrow_window.pclk narrow_window.hts - 8 ∧
      (1 : Int) ≤ (sensor_fps.mk 2).fps) ∧
    (sensor_s_fps (probe_state (quiet_bus 0) narrow_window) (sensor_fps.mk 2)).map
        (fun r => (r.1, r.2.sc4336_sensor_vts, r.2.bus.log)) =
      some (0, 5, [cci_op.wr 0x320f 5, cci_op.wr 0x320e 0]) ∧
    ¬ ((5 : Int) ≤ c_div narrow_window.pclk narrow_window.hts - 8) := by
  refine ⟨by decide, ?_, by decide⟩
  rw [sensor_s_fps_eq _ _ (by decide) (by decide)]
  rfl

/-- C5, amended: for every window descriptor with `hts ≥ 1`, at least 15 lines per
second of pixel clock (`pclk / hts ≥ 15`) and `vts ≤ pclk/hts - 8`, and for every
requested `fps ≥ 1`, `sensor_s_fps` returns 0, and the target vertical total it computes
from `pclk / fps / hts`, stores as current vts and writes to the frame-length registers
0x320f and 0x320e lies in the inclusive range `[vts, pclk/hts - 8]`. -/
theorem C5_fps_clamp_amended (s : sensor_state) (fps : sensor_fps)
    (hh : 1 ≤ s.info.current_wins.hts)
    (hP : 15 ≤ c_div s.info.current_wins.pclk s.info.current_wins.hts)
    (hv : s.info.current_wins.vts ≤
      c_div s.info.current_wins.pclk s.info.current_wins.hts - 8)
    (hf : 1 ≤ fps.fps) :
    ∃ (target : Int) (s' : sensor_state),
      sensor_s_fps s fps = some (0, s') ∧
      target = clamped_target_vts s.info.current_wins fps.fps ∧
      s'.sc4336_sensor_vts = target ∧
      s'.bus.log = s.bus.log ++
        [cci_op.wr 0x320f (Int.land target 0xff), cci_op.wr 0x320e (target >>> 8)] ∧
      s.info.current_wins.vts ≤ target ∧
      target ≤ c_div s.info.current_wins.pclk s.info.current_wins.hts - 8 := by
  obtain ⟨hlo, hhi⟩ := clamped_target_vts_bounds s.info.current_wins fps.fps hh hf hP hv
  exact ⟨_, _, sensor_s_fps_eq s fps (by omega) (by omega), rfl, rfl, rfl, hlo, hhi⟩

/-- C5 (amended) on the catalog window at 10 fps: the target is
`126000000 / 10 / 2800 = 4500`, inside `[1800, 44992]`. -/
theorem C5_fps_clamp_amended_witness :
    ((1 : Int) ≤ 2800 ∧ (15 : Int) ≤ c_div 126000000 2800 ∧
      (1800 : Int) ≤ c_div 126000000 2800 - 8 ∧ (1 : Int) ≤ 10) ∧
    ∃ (target : Int) (s' : sensor_state),
      sensor_s_fps (probe_state (quiet_bus 0) sensor_win_sizes_0) (sensor_fps.mk 10)
        = some (0, s') ∧
      target = 4500 ∧
      s'.sc4336_sensor_vts = target ∧
      (1800 : Int) ≤ target ∧ target ≤ 44992 := by
  refine ⟨by decide, ?_⟩
  obtain ⟨t, s', h1, h2, h3, -, h5, h6⟩ :=
    C5_fps_clamp_amended (probe_state (quiet_bus 0) sensor_win_sizes_0) (sensor_fps.mk 10)
      (by decide) (by decide) (by decide) (by decide)
  exact ⟨t, s', h1, h2.trans (by decide), h3, h5, h6⟩

/-! ## Combined call: clamps, stored values, read-back (C6) -/

/-- C6: for every `(e, g)` (two C `int`s), `sensor_s_exp_gain` programs the exposure
registers for `min(e, 0xFFFFF)` and the gain registers for `max(g, 16)` (the very
transactions `sensor_s_exp` and `sensor_s_gain` issue for these values), returns 0, and
leaves the session with `exp = min(e, 0xFFFFF)` and `gain = max(g, 16)`, which are
exactly the values `sensor_g_exp` and `sensor_g_gain` return afterwards. -/
theorem C6_exp_gain_clamp_and_readback (s : sensor_state) (eg : sensor_exp_gain)
    (he : -2 ^ 31 ≤ eg.exp_val ∧ eg.exp_val < 2 ^ 31)
    (hg : -2 ^ 31 ≤ eg.gain_val ∧ eg.gain_val < 2 ^ 31) :
    (∃ frame : List cci_op,
      (sensor_s_exp_gain s eg).2.bus.log = s.bus.log ++ frame ++
        exp_writes (u32 (min eg.exp_val 0xFFFFF)) ++ gain_writes (max eg.gain_val 16) ∧
      (∀ a ∈ write_addrs frame, a = 0x320f ∨ a = 0x320e)) ∧
    (∀ t : sensor_state, (sensor_s_exp t (u32 (min eg.exp_val 0xFFFFF))).2.bus.log =
        t.bus.log ++ exp_writes (u32 (min eg.exp_val 0xFFFFF))) ∧
    (∀ t : sensor_state, (sensor_s_gain t (max eg.gain_val 16)).2.bus.log =
        t.bus.log ++ gain_writes (max eg.gain_val 16)) ∧
    (sensor_s_exp_gain s eg).1 = 0 ∧
    (sensor_s_exp_gain s eg).2.info.exp = min eg.exp_val 0xFFFFF ∧
    (sensor_s_exp_gain s eg).2.info.gain = max eg.gain_val 16 ∧
    sensor_g_exp (sensor_s_exp_gain s eg).2 = (0, min eg.exp_val 0xFFFFF) ∧
    sensor_g_gain (sensor_s_exp_gain s eg).2 = (0, max eg.gain_val 16) := by
  have e1 : s32 (min eg.exp_val 0xFFFFF) = min eg.exp_val 0xFFFFF :=
    s32_of_range _ (by omega) (by omega)
  have e2 : s32 (max eg.gain_val 16) = max eg.gain_val 16 :=
    s32_of_range _ (by omega) (by omega)
  refine ⟨?_, fun t => sensor_s_exp_log_eq t _, fun t => sensor_s_gain_log_eq t _, ?_⟩
  · by_cases hf : s.sc4336_fps_change_flag = 0
    · rw [sensor_s_exp_gain_idle s eg hf]
      exact ⟨_, rfl, by simp [write_addrs]⟩
    · rw [sensor_s_exp_gain_busy s eg hf]
      exact ⟨[], by simp, by simp [write_addrs]⟩
  · by_cases hf : s.sc4336_fps_change_flag = 0
    · rw [sensor_s_exp_gain_idle s eg hf]
      simp [sensor_g_exp, sensor_g_gain, e1, e2]
    · rw [sensor_s_exp_gain_busy s eg hf]
      simp [sensor_g_exp, sensor_g_gain, e1, e2]

/-- C6 at `(e, g) = (0x200000, 3)`: the exposure is clamped down to 0xFFFFF, the gain up
to 16, and both are read back. -/
theorem C6_exp_gain_clamp_and_readback_witness :
    ((-2 ^ 31 ≤ (0x200000 : Int) ∧ (0x200000 : Int) < 2 ^ 31) ∧
      (-2 ^ 31 ≤ (3 : Int) ∧ (3 : Int) < 2 ^ 31)) ∧
    sensor_g_exp (sensor_s_exp_gain (probe_state (quiet_bus 0) sensor_win_sizes_0)
      (sensor_exp_gain.mk 0x200000 3)).2 = (0, 0xFFFFF) ∧
    sensor_g_gain (sensor_s_exp_gain (probe_state (quiet_bus 0) sensor_win_sizes_0)
      (sensor_exp_gain.mk 0x200000 3)).2 = (0, 16) := by
  refine ⟨by decide, ?_⟩
  have h := C6_exp_gain_clamp_and_readback (probe_state (quiet_bus 0) sensor_win_sizes_0)
    (sensor_exp_gain.mk 0x200000 3) (by decide) (by decide)
  exact ⟨h.2.2.2.2.2.2.1, h.2.2.2.2.2.2.2⟩

/-! ## Order of the register writes of the combined call (C7) -/

/-- C7 as stated fails: with no fps change in progress, the call for
`(e, g) = (0x5D40, 32)` issues its writes to 0x320f, 0x320e, then 0x3e02, 0x3e01, 0x3e00,
then 0x3e09, 0x3e07, 0x3e06 - frame length first and gain last, the reverse of the
claimed order gain, exposure, frame length. -/
theorem C7_write_order_counterexample :
    (probe_state (quiet_bus 0) sensor_win_sizes_0).sc4336_fps_change_flag = 0 ∧
    write_addrs (sensor_s_exp_gain (probe_state (quiet_bus 0) sensor_win_sizes_0)
      (sensor_exp_gain.mk 0x5D40 32)).2.bus.log =
      [0x320f, 0x320e, 0x3e02, 0x3e01, 0x3e00, 0x3e09, 0x3e07, 0x3e06] ∧
    write_addrs (sensor_s_exp_gain (probe_state (quiet_bus 0) sensor_win_sizes_0)
      (sensor_exp_gain.mk 0x5D40 32)).2.bus.log ≠
      [0x3e09, 0x3e07, 0x3e06, 0x3e02, 0x3e01, 0x3e00, 0x320f, 0x320e] := by
  refine ⟨rfl, ?_, ?_⟩
  · rfl
  · have h : write_addrs (sensor_s_exp_gain (probe_state (quiet_bus 0) sensor_win_sizes_0)
        (sensor_exp_gain.mk 0x5D40 32)).2.bus.log =
        [0x320f, 0x320e, 0x3e02, 0x3e01, 0x3e00, 0x3e09, 0x3e07, 0x3e06] := rfl
    rw [h]
    decide

theorem write_addrs_append (l1 l2 : List cci_op) :
    write_addrs (l1 ++ l2) = write_addrs l1 ++ write_addrs l2 := by
  induction l1 with
  | nil => rfl
  | cons a l ih =>
    cases a with
    | rd reg => simpa [write_addrs] using ih
    | wr reg value => simpa [write_addrs] using ih

/-- C7, amended: for every `(e, g)` with no fps change in progress, the transactions
`sensor_s_exp_gain` adds to the bus are eight writes in this order: first the
frame-length registers (0x320f, 0x320e), then the exposure registers
(0x3e02, 0x3e01, 0x3e00), then the gain registers (0x3e09, 0x3e07, 0x3e06); and the
resulting state is the state after all of these writes with the session's stored
exposure and gain set to the clamped values, nothing else being changed. -/
theorem C7_write_order_amended (s : sensor_state) (eg : sensor_exp_gain)
    (hf : s.sc4336_fps_change_flag = 0) :
    ∃ (lo hi : Int) (ew gw : List cci_op),
      (sensor_s_exp_gain s eg).2.bus.log =
        s.bus.log ++ [cci_op.wr 0x320f lo, cci_op.wr 0x320e hi] ++ ew ++ gw ∧
      ew.length = 3 ∧ write_addrs ew = [0x3e02, 0x3e01, 0x3e00] ∧
      gw.length = 3 ∧ write_addrs gw = [0x3e09, 0x3e07, 0x3e06] ∧
      write_addrs ([cci_op.wr 0x320f lo, cci_op.wr 0x320e hi] ++ ew ++ gw) =
        [0x320f, 0x320e, 0x3e02, 0x3e01, 0x3e00, 0x3e09, 0x3e07, 0x3e06] ∧
      (sensor_s_exp_gain s eg).2 =
        { s with
          bus := { s.bus with
            log := (s.bus.log ++ [cci_op.wr 0x320f lo, cci_op.wr 0x320e hi] ++ ew ++ gw) },
          info := { s.info with exp := min eg.exp_val 0xFFFFF,
                                gain := max eg.gain_val 16 } } := by
  have h1 : (exp_writes (u32 (min eg.exp_val 0xfffff))).length = 3 := by
    simp [exp_writes, sensor_s_exp, sensor_write, probe_state, quiet_bus]
  have h2 : (gain_writes (max eg.gain_val 16)).length = 3 := by
    simp [gain_writes, sensor_s_gain, sensor_write, probe_state, quiet_bus]
  rw [sensor_s_exp_gain_idle s eg hf]
  refine ⟨_, _, exp_writes (u32 (min eg.exp_val 0xfffff)), gain_writes (max eg.gain_val 16),
    rfl, h1, write_addrs_exp_writes _, h2, write_addrs_gain_writes _, ?_, rfl⟩
  rw [write_addrs_append, write_addrs_append, write_addrs_exp_writes,
    write_addrs_gain_writes]
  rfl

/-- C7 (amended) at `(e, g) = (0x5D40, 32)` from the probe state. -/
theorem C7_write_order_amended_witness :
    (probe_state (quiet_bus 0) sensor_win_sizes_0).sc4336_fps_change_flag = 0 ∧
    ∃ (lo hi : Int) (ew gw : List cci_op),
      (sensor_s_exp_gain (probe_state (quiet_bus 0) sensor_win_sizes_0)
        (sensor_exp_gain.mk 0x5D40 32)).2.bus.log =
        [cci_op.wr 0x320f lo, cci_op.wr 0x320e hi] ++ ew ++ gw ∧
      write_addrs ew = [0x3e02, 0x3e01, 0x3e00] ∧
      write_addrs gw = [0x3e09, 0x3e07, 0x3e06] := by
  refine ⟨rfl, ?_⟩
  obtain ⟨lo, hi, ew, gw, h1, -, h3, -, h5, -, -⟩ := C7_write_order_amended
    (probe_state (quiet_bus 0) sensor_win_sizes_0) (sensor_exp_gain.mk 0x5D40 32) rfl
  exact ⟨lo, hi, ew, gw, h1, h3, h5⟩

/-! ## The fps-change guard flag across complete operations (C8) -/

theorem sensor_s_exp_flag (s : sensor_state) (e : Nat) :
    (sensor_s_exp s e).2.sc4336_fps_change_flag = s.sc4336_fps_change_flag := rfl

theorem sensor_s_gain_flag (s : sensor_state) (g : Int) :
    (sensor_s_gain s g).2.sc4336_fps_change_flag = s.sc4336_fps_change_flag := rfl

theorem sensor_s_exp_gain_flag (s : sensor_state) (eg : sensor_exp_gain) :
    (sensor_s_exp_gain s eg).2.sc4336_fps_change_flag = s.sc4336_fps_change_flag := by
  by_cases hf : s.sc4336_fps_change_flag = 0
  · rw [sensor_s_exp_gain_idle s eg hf]
  · rw [sensor_s_exp_gain_busy s eg hf]

theorem sensor_s_fps_flag (s : sensor_state) (fps : sensor_fps) (r : Int)
    (s' : sensor_state) (h : sensor_s_fps s fps = some (r, s')) :
    s'.sc4336_fps_change_flag = 0 := by
  by_cases h1 : fps.fps = 0
  · simp [sensor_s_fps, h1] at h
  by_cases h2 : s.info.current_wins.hts = 0
  · simp [sensor_s_fps, h2] at h
  rw [sensor_s_fps_eq s fps h1 h2] at h
  simp only [Option.some.injEq, Prod.mk.injEq] at h
  rw [← h.2]

theorem sensor_s_hflip_flag (s : sensor_state) (enable : Int) :
    (sensor_s_hflip s enable).2.sc4336_fps_change_flag = s.sc4336_fps_change_flag := by
  unfold sensor_s_hflip
  split_ifs <;> rfl

theorem sensor_s_vflip_flag (s : sensor_state) (enable : Int) :
    (sensor_s_vflip s enable).2.sc4336_fps_change_flag = s.sc4336_fps_change_flag := by
  unfold sensor_s_vflip
  split_ifs <;> rfl

theorem sensor_get_temp_flag (s : sensor_state) :
    (sensor_get_temp s).2.2.sc4336_fps_change_flag = s.sc4336_fps_change_flag := by
  unfold sensor_get_temp
  simp only
  split_ifs <;> rfl

theorem sensor_s_sw_stby_flag (s : sensor_state) (b : Bool) :
    (sensor_s_sw_stby s b).2.sc4336_fps_change_flag = s.sc4336_fps_change_flag := by
  unfold sensor_s_sw_stby
  simp only
  split_ifs <;> rfl

theorem sensor_init_flag (s : sensor_state) :
    (sensor_init s).2.sc4336_fps_change_flag = s.sc4336_fps_change_flag := by
  unfold sensor_init sensor_detect
  simp only
  split_ifs <;> rfl

theorem sensor_s_stream_flag (s : sensor_state) (enable : Int) :
    (sensor_s_stream s enable).2.sc4336_fps_change_flag = s.sc4336_fps_change_flag := by
  unfold sensor_s_stream sensor_reg_init
  simp only
  split_ifs <;> rfl

/-- One complete operation started with the guard flag clear ends with it clear. -/
theorem run_call_flag (s s' : sensor_state) (c : sensor_call)
    (h : run_call s c = some s') (hf : s.sc4336_fps_change_flag = 0) :
    s'.sc4336_fps_change_flag = 0 := by
  cases c with
  | g_ctrl id =>
    simp only [run_call, Option.some.injEq] at h
    rw [← h]; exact hf
  | s_ctrl id val =>
    simp only [run_call, Option.some.injEq] at h
    rw [← h]
    cases id
    · exact (sensor_s_gain_flag s val).trans hf
    · exact (sensor_s_exp_flag s (u32 val)).trans hf
    · exact (sensor_s_hflip_flag s val).trans hf
    · exact (sensor_s_vflip_flag s val).trans hf
    · exact hf
  | ioctl cmd =>
    cases cmd with
    | VIDIOC_VIN_SENSOR_SET_FPS arg =>
      simp only [run_call, sensor_ioctl, Option.map_eq_some'] at h
      obtain ⟨⟨r, t⟩, h1, h2⟩ := h
      simp only at h2
      subst h2
      exact sensor_s_fps_flag s arg r t h1
    | VIDIOC_VIN_SENSOR_EXP_GAIN arg =>
      simp only [run_call, sensor_ioctl, Option.map_some', Option.some.injEq] at h
      rw [← h]
      exact (sensor_s_exp_gain_flag s arg).trans hf
    | VIDIOC_VIN_SENSOR_GET_TEMP =>
      simp only [run_call, sensor_ioctl, Option.map_some', Option.some.injEq] at h
      rw [← h]
      exact (sensor_get_temp_flag s).trans hf
    | GET_CURRENT_WIN_CFG =>
      simp only [run_call, sensor_ioctl, Option.map_some', Option.some.injEq] at h
      rw [← h]; exact hf
    | SET_FPS =>
      simp only [run_call, sensor_ioctl, Option.map_some', Option.some.injEq] at h
      rw [← h]; exact hf
    | VIDIOC_VIN_SENSOR_CFG_REQ =>
      simp only [run_call, sensor_ioctl, Option.map_some', Option.some.injEq] at h
      rw [← h]; exact hf
    | VIDIOC_VIN_GET_SENSOR_CODE =>
      simp only [run_call, sensor_ioctl, Option.map_some', Option.some.injEq] at h
      rw [← h]; exact hf
    | other =>
      simp only [run_call, sensor_ioctl, Option.map_some', Option.some.injEq] at h
      rw [← h]; exact hf
  | init =>
    simp only [run_call, Option.some.injEq] at h
    rw [← h]; exact (sensor_init_flag s).trans hf
  | s_stream enable =>
    simp only [run_call, Option.some.injEq] at h
    rw [← h]; exact (sensor_s_stream_flag s enable).trans hf
  | sw_stby b =>
    simp only [run_call, Option.some.injEq] at h
    rw [← h]; exact (sensor_s_sw_stby_flag s b).trans hf

/-- Any sequence of complete operations started with the guard flag clear ends with it
clear. -/
theorem run_calls_flag (calls : List sensor_call) :
    ∀ (s s' : sensor_state), run_calls s calls = some s' →
      s.sc4336_fps_change_flag = 0 → s'.sc4336_fps_change_flag = 0 := by
  induction calls with
  | nil =>
    intro s s' h hf
    simp only [run_calls, Option.some.injEq] at h
    rw [← h]; exact hf
  | cons c cs ih =>
    intro s s' h hf
    simp only [run_calls, Option.bind_eq_some] at h
    obtain ⟨s1, h1, h2⟩ := h
    exact ih s1 s' h2 (run_call_flag s s1 c h1 hf)

/-- C8: for every session state and every requested `fps ≥ 1`, `sensor_s_fps` returns
exactly when the window's `hts` is non-zero, and when it returns: the result is 0, the
fps-change guard flag is cleared, the remembered current vts equals the clamped target,
and the only bus transactions it made are the writes of `target & 0xff` to 0x320f
followed by `target >> 8` to 0x320e.  Hence the guard flag is 0 in the probe state and in
every state reached from it by running complete operations one after another. -/
theorem C8_fps_completes_and_flag_invariant (s : sensor_state) (fps : sensor_fps)
    (hfps : 1 ≤ fps.fps) :
    ((sensor_s_fps s fps).isSome = true ↔ s.info.current_wins.hts ≠ 0) ∧
    (∀ (r : Int) (s' : sensor_state), sensor_s_fps s fps = some (r, s') →
      r = 0 ∧
      s'.sc4336_fps_change_flag = 0 ∧
      s'.sc4336_sensor_vts = clamped_target_vts s.info.current_wins fps.fps ∧
      s'.bus.log = s.bus.log ++
        [cci_op.wr 0x320f (Int.land (clamped_target_vts s.info.current_wins fps.fps) 0xff),
         cci_op.wr 0x320e (clamped_target_vts s.info.current_wins fps.fps >>> 8)]) ∧
    (∀ (d : cci_dev) (w : sensor_win_size) (calls : List sensor_call) (s' : sensor_state),
      (probe_state d w).sc4336_fps_change_flag = 0 ∧
      (run_calls (probe_state d w) calls = some s' → s'.sc4336_fps_change_flag = 0)) := by
  refine ⟨?_, ?_, ?_⟩
  · by_cases hh : s.info.current_wins.hts = 0
    · simp [sensor_s_fps, hh]
    · rw [sensor_s_fps_eq s fps (by omega) hh]
      simp [hh]
  · intro r s' h
    have hh : s.info.current_wins.hts ≠ 0 := by
      intro h0
      simp [sensor_s_fps, h0] at h
    rw [sensor_s_fps_eq s fps (by omega) hh] at h
    simp only [Option.some.injEq, Prod.mk.injEq] at h
    obtain ⟨h1, h2⟩ := h
    subst h1 h2
    exact ⟨rfl, rfl, rfl, rfl⟩
  · intro d w calls s'
    exact ⟨rfl, fun h => run_calls_flag calls _ s' h rfl⟩

/-- C8 on the catalog window: a 10 fps request returns, and after stream-on, the
fps request and an exposure/gain request in a row the guard flag is 0. -/
theorem C8_fps_completes_and_flag_invariant_witness :
    (1 : Int) ≤ (sensor_fps.mk 10).fps ∧
    (sensor_s_fps (probe_state (quiet_bus 0) sensor_win_sizes_0) (sensor_fps.mk 10)).isSome
      = true ∧
    (run_calls (probe_state (quiet_bus 0) sensor_win_sizes_0)
      [sensor_call.s_stream 1,
       sensor_call.ioctl (ioctl_cmd.VIDIOC_VIN_SENSOR_SET_FPS (sensor_fps.mk 10)),
       sensor_call.ioctl (ioctl_cmd.VIDIOC_VIN_SENSOR_EXP_GAIN
         (sensor_exp_gain.mk 0x5D40 32))]).isSome = true ∧
    ∀ s' : sensor_state,
      run_calls (probe_state (quiet_bus 0) sensor_win_sizes_0)
        [sensor_call.s_stream 1,
         sensor_call.ioctl (ioctl_cmd.VIDIOC_VIN_SENSOR_SET_FPS (sensor_fps.mk 10)),
         sensor_call.ioctl (ioctl_cmd.VIDIOC_VIN_SENSOR_EXP_GAIN
           (sensor_exp_gain.mk 0x5D40 32))] = some s' →
      s'.sc4336_fps_change_flag = 0 := by
  have h := C8_fps_completes_and_flag_invariant
    (probe_state (quiet_bus 0) sensor_win_sizes_0) (sensor_fps.mk 10) (by decide)
  refine ⟨by decide, h.1.2 (by decide), rfl, fun s' hs => ?_⟩
  exact (h.2.2 (quiet_bus 0) sensor_win_sizes_0 _ s').2 hs

/-! ## Guarded call during an fps change (C9) -/

/-- C9: for every `(e, g)` and every state in which the fps-change guard flag is set
(non-zero), `sensor_s_exp_gain` performs no write to the frame-length registers 0x320e
and 0x320f and leaves the current vts unchanged, while it still writes the exposure
registers (0x3e02, 0x3e01, 0x3e00) and the gain registers (0x3e09, 0x3e07, 0x3e06) and
updates the stored exposure and gain. -/
theorem C9_guard_skips_frame_length (s : sensor_state) (eg : sensor_exp_gain)
    (hf : s.sc4336_fps_change_flag ≠ 0) :
    (sensor_s_exp_gain s eg).2.bus.log = s.bus.log ++
      exp_writes (u32 (min eg.exp_val 0xFFFFF)) ++ gain_writes (max eg.gain_val 16) ∧
    write_addrs (exp_writes (u32 (min eg.exp_val 0xFFFFF)) ++
      gain_writes (max eg.gain_val 16)) = [0x3e02, 0x3e01, 0x3e00, 0x3e09, 0x3e07, 0x3e06] ∧
    (0x320e : Nat) ∉ write_addrs (exp_writes (u32 (min eg.exp_val 0xFFFFF)) ++
      gain_writes (max eg.gain_val 16)) ∧
    (0x320f : Nat) ∉ write_addrs (exp_writes (u32 (min eg.exp_val 0xFFFFF)) ++
      gain_writes (max eg.gain_val 16)) ∧
    (sensor_s_exp_gain s eg).2.sc4336_sensor_vts = s.sc4336_sensor_vts ∧
    (sensor_s_exp_gain s eg).2.info.exp = min eg.exp_val 0xFFFFF ∧
    (sensor_s_exp_gain s eg).2.info.gain = max eg.gain_val 16 := by
  have ha : write_addrs (exp_writes (u32 (min eg.exp_val 0xFFFFF)) ++
      gain_writes (max eg.gain_val 16)) = [0x3e02, 0x3e01, 0x3e00, 0x3e09, 0x3e07, 0x3e06] := by
    rw [write_addrs_append, write_addrs_exp_writes, write_addrs_gain_writes]
    rfl
  rw [sensor_s_exp_gain_busy s eg hf, ha]
  exact ⟨rfl, rfl, by decide, by decide, rfl, rfl, rfl⟩

/-- C9 at `(e, g) = (0xFFFFF, 32)` with the guard flag set and vts 1800: although the
shutter 0xFFFF exceeds `vts - 8`, no frame-length write is issued and vts stays 1800. -/
theorem C9_guard_skips_frame_length_witness :
    (1 : Int) ≠ 0 ∧
    write_addrs (sensor_s_exp_gain
      { probe_state (quiet_bus 0) sensor_win_sizes_0 with
        sc4336_sensor_vts := 1800, sc4336_fps_change_flag := 1 }
      (sensor_exp_gain.mk 0xFFFFF 32)).2.bus.log =
      [0x3e02, 0x3e01, 0x3e00, 0x3e09, 0x3e07, 0x3e06] ∧
    (sensor_s_exp_gain
      { probe_state (quiet_bus 0) sensor_win_sizes_0 with
        sc4336_sensor_vts := 1800, sc4336_fps_change_flag := 1 }
      (sensor_exp_gain.mk 0xFFFFF 32)).2.sc4336_sensor_vts = 1800 := by
  refine ⟨by decide, ?_⟩
  have h := C9_guard_skips_frame_length
    { probe_state (quiet_bus 0) sensor_win_sizes_0 with
      sc4336_sensor_vts := 1800, sc4336_fps_change_flag := 1 }
    (sensor_exp_gain.mk 0xFFFFF 32) (by decide)
  refine ⟨?_, h.2.2.2.2.1⟩
  rw [h.1]
  exact h.2.1

/-! ## Orientation: read-modify-write of register 0x3221 (C10) -/

set_option maxRecDepth 100000 in
/-- Byte-level facts about the four read-modify-write values. -/
theorem flip_byte_facts : ∀ r : Nat, r < 256 →
    ((r &&& 0xf9) &&& 0x60 = r &&& 0x60 ∧ (r ||| 0x06) &&& 0x60 = r &&& 0x60 ∧
     (r &&& 0x9f) &&& 0x06 = r &&& 0x06 ∧ (r ||| 0x60) &&& 0x06 = r &&& 0x06) ∧
    (r &&& 0xf9 < 256 ∧ r ||| 0x06 < 256 ∧ r &&& 0x9f < 256 ∧ r ||| 0x60 < 256) := by
  decide

/-- Clearing with a mask `m` that has, among the low eight bits, every bit outside `k`
set leaves a byte unchanged outside `k`. -/
theorem and_mask_agree (r m k : Nat) (hr : r < 256)
    (hmk : ∀ i, i < 8 → k.testBit i = false → m.testBit i = true)
    (i : Nat) (hk : k.testBit i = false) : (r &&& m).testBit i = r.testBit i := by
  rw [Nat.testBit_and]
  by_cases hi : i < 8
  · rw [hmk i hi hk, Bool.and_true]
  · have h8 : r < 2 ^ i :=
      lt_of_lt_of_le hr (by
        have : (2 : Nat) ^ 8 ≤ 2 ^ i := Nat.pow_le_pow_right (by norm_num) (by omega)
        simpa using this)
    rw [Nat.testBit_lt_two_pow h8, Bool.false_and]

/-- Setting the bits of `k` leaves every bit outside `k` unchanged. -/
theorem or_mask_agree (r k i : Nat) (hk : k.testBit i = false) :
    (r ||| k).testBit i = r.testBit i := by
  rw [Nat.testBit_or, hk, Bool.or_false]

theorem mask_f9_06 : ∀ i, i < 8 → Nat.testBit 0x06 i = false → Nat.testBit 0xf9 i = true := by
  decide

theorem mask_9f_60 : ∀ i, i < 8 → Nat.testBit 0x60 i = false → Nat.testBit 0x9f i = true := by
  decide

/-- C10: for every prior value `r` of the shared register 0x3221 (a byte) and every
`enable` in {0,1}: `sensor_s_hflip` reads `r` and writes back a byte (`r & 0xf9` for
enable 1, `r | 0x06` for enable 0) that agrees with `r` on every bit outside mask 0x06,
so the vertical-flip bits 0x60 are identical before and after; and `sensor_s_vflip`
writes back a byte (`r & 0x9f` or `r | 0x60`) that agrees with `r` on every bit outside
mask 0x60, so the horizontal-flip bits 0x06 are unchanged. -/
theorem C10_flip_read_modify_write (s : sensor_state) (enable : Int)
    (hen : enable = 0 ∨ enable = 1) (hr : s.bus.val s.bus.log.length < 256) :
    (∃ w : Nat,
      (sensor_s_hflip s enable).2.bus.log =
        s.bus.log ++ [cci_op.rd 0x3221, cci_op.wr 0x3221 w] ∧
      (enable = 1 → w = s.bus.val s.bus.log.length &&& 0xf9) ∧
      (enable = 0 → w = s.bus.val s.bus.log.length ||| 0x06) ∧
      w < 256 ∧
      (∀ i, Nat.testBit 0x06 i = false →
        w.testBit i = (s.bus.val s.bus.log.length).testBit i) ∧
      w &&& 0x60 = s.bus.val s.bus.log.length &&& 0x60) ∧
    (∃ w : Nat,
      (sensor_s_vflip s enable).2.bus.log =
        s.bus.log ++ [cci_op.rd 0x3221, cci_op.wr 0x3221 w] ∧
      (enable = 1 → w = s.bus.val s.bus.log.length &&& 0x9f) ∧
      (enable = 0 → w = s.bus.val s.bus.log.length ||| 0x60) ∧
      w < 256 ∧
      (∀ i, Nat.testBit 0x60 i = false →
        w.testBit i = (s.bus.val s.bus.log.length).testBit i) ∧
      w &&& 0x06 = s.bus.val s.bus.log.length &&& 0x06) := by
  obtain ⟨⟨f1, f2, f3, f4⟩, g1, g2, g3, g4⟩ := flip_byte_facts _ hr
  rcases hen with h0 | h1
  · subst h0
    refine ⟨⟨s.bus.val s.bus.log.length ||| 0x06, ?_, by simp, fun _ => rfl, g2,
        fun i hi => or_mask_agree _ _ i hi, f2⟩,
      ⟨s.bus.val s.bus.log.length ||| 0x60, ?_, by simp, fun _ => rfl, g4,
        fun i hi => or_mask_agree _ _ i hi, f4⟩⟩
    · simp [sensor_s_hflip, sensor_read, sensor_write, SENSOR_HOR_VER_CFG0_REG1]
    · simp [sensor_s_vflip, sensor_read, sensor_write, SENSOR_HOR_VER_CFG0_REG1]
  · subst h1
    refine ⟨⟨s.bus.val s.bus.log.length &&& 0xf9, ?_, fun _ => rfl, by simp, g1,
        fun i hi => and_mask_agree _ _ _ hr mask_f9_06 i hi, f1⟩,
      ⟨s.bus.val s.bus.log.length &&& 0x9f, ?_, fun _ => rfl, by simp, g3,
        fun i hi => and_mask_agree _ _ _ hr mask_9f_60 i hi, f3⟩⟩
    · simp [sensor_s_hflip, sensor_read, sensor_write, SENSOR_HOR_VER_CFG0_REG1]
    · simp [sensor_s_vflip, sensor_read, sensor_write, SENSOR_HOR_VER_CFG0_REG1]

/-- C10 at `r = 0x66`, `enable = 1`: the horizontal flip writes 0x60 (vertical bits
0x60 kept), the vertical flip writes 0x06 (horizontal bits 0x06 kept). -/
theorem C10_flip_read_modify_write_witness :
    (((1 : Int) = 0 ∨ (1 : Int) = 1) ∧ (0x66 : Nat) < 256) ∧
    (sensor_s_hflip (probe_state (quiet_bus 0x66) sensor_win_sizes_0) 1).2.bus.log =
      [cci_op.rd 0x3221, cci_op.wr 0x3221 0x60] ∧
    (sensor_s_vflip (probe_state (quiet_bus 0x66) sensor_win_sizes_0) 1).2.bus.log =
      [cci_op.rd 0x3221, cci_op.wr 0x3221 0x06] := by
  refine ⟨by decide, ?_⟩
  obtain ⟨⟨w, hw, hw1, -⟩, ⟨v, hv, hv1, -⟩⟩ := C10_flip_read_modify_write
    (probe_state (quiet_bus 0x66) sensor_win_sizes_0) 1 (Or.inr rfl) (by decide)
  have e1 : w = 0x60 := hw1 rfl
  have e2 : v = 0x06 := hv1 rfl
  rw [hw, hv, e1, e2]
  exact ⟨rfl, rfl⟩

/-! ## Orientation: input validation (C11) -/

/-- C11: for every `enable` other than 0 and 1, `sensor_s_hflip` and `sensor_s_vflip`
return the non-zero error -1 and leave the whole state as it was: no read or write of
register 0x3221 (the transaction log is unchanged) and no change of any session field;
for `enable` in {0,1} they return 0. -/
theorem C11_flip_rejects_invalid_enable (s : sensor_state) (enable : Int) :
    (¬ (enable = 0 ∨ enable = 1) →
      sensor_s_hflip s enable = (-1, s) ∧ sensor_s_vflip s enable = (-1, s) ∧
      (sensor_s_hflip s enable).1 ≠ 0 ∧ (sensor_s_vflip s enable).1 ≠ 0 ∧
      (sensor_s_hflip s enable).2.bus.log = s.bus.log ∧
      (sensor_s_vflip s enable).2.bus.log = s.bus.log ∧
      (sensor_s_hflip s enable).2.info = s.info ∧
      (sensor_s_vflip s enable).2.info = s.info) ∧
    ((enable = 0 ∨ enable = 1) →
      (sensor_s_hflip s enable).1 = 0 ∧ (sensor_s_vflip s enable).1 = 0) := by
  constructor
  · intro h
    have e1 : sensor_s_hflip s enable = (-1, s) := by
      unfold sensor_s_hflip; rw [if_pos h]
    have e2 : sensor_s_vflip s enable = (-1, s) := by
      unfold sensor_s_vflip; rw [if_pos h]
    rw [e1, e2]
    exact ⟨rfl, rfl, by simp, by simp, rfl, rfl, rfl, rfl⟩
  · intro h
    constructor
    · unfold sensor_s_hflip; rw [if_neg (not_not.mpr h)]
    · unfold sensor_s_vflip; rw [if_neg (not_not.mpr h)]

/-- C11 at `enable = 2` (rejected, nothing issued) and `enable = 1` (accepted). -/
theorem C11_flip_rejects_invalid_enable_witness :
    (¬ ((2 : Int) = 0 ∨ (2 : Int) = 1) ∧ ((1 : Int) = 0 ∨ (1 : Int) = 1)) ∧
    (sensor_s_hflip (probe_state (quiet_bus 0x66) sensor_win_sizes_0) 2).1 = -1 ∧
    (sensor_s_vflip (probe_state (quiet_bus 0x66) sensor_win_sizes_0) 2).2.bus.log = [] ∧
    (sensor_s_hflip (probe_state (quiet_bus 0x66) sensor_win_sizes_0) 1).1 = 0 := by
  refine ⟨by decide, ?_, ?_, ?_⟩
  · have h := (C11_flip_rejects_invalid_enable
      (probe_state (quiet_bus 0x66) sensor_win_sizes_0) 2).1 (by decide)
    rw [h.1]
  · have h := (C11_flip_rejects_invalid_enable
      (probe_state (quiet_bus 0x66) sensor_win_sizes_0) 2).1 (by decide)
    rw [h.2.1]; rfl
  · exact ((C11_flip_rejects_invalid_enable
      (probe_state (quiet_bus 0x66) sensor_win_sizes_0) 1).2 (Or.inr rfl)).1

/-! ## Thermal compensation: one call (C12) -/

/-- The whole effect of one `sensor_get_temp` call, by the three cases of the source. -/
theorem sensor_get_temp_eq (s : sensor_state) :
    sensor_get_temp s =
      (s.bus.ret (s.bus.log.length + 1),
       c_div (((s.bus.val s.bus.log.length <<< 8 |||
          s.bus.val (s.bus.log.length + 1) : Nat)) : Int) 5,
       if s.is_ht = 1 ∧ c_div (((s.bus.val s.bus.log.length <<< 8 |||
          s.bus.val (s.bus.log.length + 1) : Nat)) : Int) 5 < 70 then
         { s with is_ht := 0, bus := { s.bus with log := (s.bus.log ++
            [cci_op.rd 0x399c, cci_op.rd 0x399d,
             cci_op.wr 0x57AA 0x2A, cci_op.wr 0x57AD 0x0D]) } }
       else if s.is_ht = 0 ∧ c_div (((s.bus.val s.bus.log.length <<< 8 |||
          s.bus.val (s.bus.log.length + 1) : Nat)) : Int) 5 > 71 then
         { s with is_ht := 1, bus := { s.bus with log := (s.bus.log ++
            [cci_op.rd 0x399c, cci_op.rd 0x399d,
             cci_op.wr 0x57AA 0xCD, cci_op.wr 0x57AD 0x00]) } }
       else
         { s with bus := { s.bus with log := (s.bus.log ++
            [cci_op.rd 0x399c, cci_op.rd 0x399d]) } }) := by
  simp only [sensor_get_temp, sensor_read, sensor_write, List.length_append,
    List.length_singleton, Nat.zero_or, List.append_assoc, List.singleton_append,
    List.cons_append, List.nil_append]
  split_ifs <;> rfl

/-- C12: one call of `sensor_get_temp`, with `high` and `low` the bytes read from 0x399c
and 0x399d, proxy `p = ((high << 8) | low) / 5` and hysteresis flag `f = is_ht`, behaves
as the step function: if `f = 1` and `p < 70` it writes 0x57AA = 0x2A then 0x57AD = 0x0D
and sets `f = 0`; if `f = 0` and `p > 71` it writes 0x57AA = 0xCD then 0x57AD = 0x00 and
sets `f = 1`; in every other case, in particular for every `p` in {70, 71} whatever `f`
is, it writes no register and leaves `f` unchanged.  It always reports `p`. -/
theorem C12_temperature_step (s : sensor_state) :
    ∃ p : Int,
      p = c_div (((s.bus.val s.bus.log.length <<< 8 |||
            s.bus.val (s.bus.log.length + 1) : Nat)) : Int) 5 ∧
      (sensor_get_temp s).2.1 = p ∧
      (s.is_ht = 1 ∧ p < 70 →
        (sensor_get_temp s).2.2.bus.log = s.bus.log ++
          [cci_op.rd 0x399c, cci_op.rd 0x399d,
           cci_op.wr 0x57AA 0x2A, cci_op.wr 0x57AD 0x0D] ∧
        (sensor_get_temp s).2.2.is_ht = 0) ∧
      (s.is_ht = 0 ∧ p > 71 →
        (sensor_get_temp s).2.2.bus.log = s.bus.log ++
          [cci_op.rd 0x399c, cci_op.rd 0x399d,
           cci_op.wr 0x57AA 0xCD, cci_op.wr 0x57AD 0x00] ∧
        (sensor_get_temp s).2.2.is_ht = 1) ∧
      (¬ (s.is_ht = 1 ∧ p < 70) ∧ ¬ (s.is_ht = 0 ∧ p > 71) →
        (sensor_get_temp s).2.2.bus.log = s.bus.log ++
          [cci_op.rd 0x399c, cci_op.rd 0x399d] ∧
        (sensor_get_temp s).2.2.is_ht = s.is_ht) ∧
      (70 ≤ p ∧ p ≤ 71 →
        (sensor_get_temp s).2.2.bus.log = s.bus.log ++
          [cci_op.rd 0x399c, cci_op.rd 0x399d] ∧
        (sensor_get_temp s).2.2.is_ht = s.is_ht) := by
  refine ⟨_, rfl, ?_, ?_, ?_, ?_, ?_⟩
  · rw [sensor_get_temp_eq]
  · intro h
    rw [sensor_get_temp_eq]
    rw [if_pos h]
    exact ⟨rfl, rfl⟩
  · intro h
    have h1 : ¬ (s.is_ht = 1 ∧ c_div (((s.bus.val s.bus.log.length <<< 8 |||
        s.bus.val (s.bus.log.length + 1) : Nat)) : Int) 5 < 70) := by
      intro c; omega
    rw [sensor_get_temp_eq]
    rw [if_neg h1, if_pos h]
    exact ⟨rfl, rfl⟩
  · intro h
    rw [sensor_get_temp_eq]
    rw [if_neg h.1, if_neg h.2]
    exact ⟨rfl, rfl⟩
  · intro h
    have h1 : ¬ (s.is_ht = 1 ∧ c_div (((s.bus.val s.bus.log.length <<< 8 |||
        s.bus.val (s.bus.log.length + 1) : Nat)) : Int) 5 < 70) := by
      intro c; omega
    have h2 : ¬ (s.is_ht = 0 ∧ c_div (((s.bus.val s.bus.log.length <<< 8 |||
        s.bus.val (s.bus.log.length + 1) : Nat)) : Int) 5 > 71) := by
      intro c; omega
    rw [sensor_get_temp_eq]
    rw [if_neg h1, if_neg h2]
    exact ⟨rfl, rfl⟩

/-- C12 from the probe state (`f = 1`) with the bytes 0x01, 0x01 read: the proxy is
`0x0101 / 5 = 51 < 70`, so the two calibration writes are issued and `f` becomes 0. -/
theorem C12_temperature_step_witness :
    ((probe_state (quiet_bus 1) sensor_win_sizes_0).is_ht = 1 ∧ (51 : Int) < 70) ∧
    (sensor_get_temp (probe_state (quiet_bus 1) sensor_win_sizes_0)).2.1 = 51 ∧
    (sensor_get_temp (probe_state (quiet_bus 1) sensor_win_sizes_0)).2.2.bus.log =
      [cci_op.rd 0x399c, cci_op.rd 0x399d, cci_op.wr 0x57AA 0x2A, cci_op.wr 0x57AD 0x0D] ∧
    (sensor_get_temp (probe_state (quiet_bus 1) sensor_win_sizes_0)).2.2.is_ht = 0 := by
  obtain ⟨p, hp, h1, h2, -⟩ :=
    C12_temperature_step (probe_state (quiet_bus 1) sensor_win_sizes_0)
  have e : p = 51 := by rw [hp]; decide
  subst e
  exact ⟨⟨rfl, by decide⟩, h1, (h2 ⟨rfl, by decide⟩).1, (h2 ⟨rfl, by decide⟩).2⟩

/-! ## Thermal hysteresis over successive calls (C13) -/

/-- One step of the trace, by the three cases of `sensor_get_temp`. -/
theorem get_temp_step (s : sensor_state) :
    (s.is_ht = 1 ∧ (sensor_get_temp s).2.1 < 70 →
      (sensor_get_temp s).2.2.bus.log.drop s.bus.log.length = temp_reads ++ temp_rewrite_low ∧
      (sensor_get_temp s).2.2.is_ht = 0) ∧
    (s.is_ht = 0 ∧ (sensor_get_temp s).2.1 > 71 →
      (sensor_get_temp s).2.2.bus.log.drop s.bus.log.length = temp_reads ++ temp_rewrite_high ∧
      (sensor_get_temp s).2.2.is_ht = 1) ∧
    (¬ (s.is_ht = 1 ∧ (sensor_get_temp s).2.1 < 70) ∧
      ¬ (s.is_ht = 0 ∧ (sensor_get_temp s).2.1 > 71) →
      (sensor_get_temp s).2.2.bus.log.drop s.bus.log.length = temp_reads ∧
      (sensor_get_temp s).2.2.is_ht = s.is_ht) := by
  rw [sensor_get_temp_eq]
  refine ⟨fun h => ?_, fun h => ?_, fun h => ?_⟩
  · simp only at h
    rw [if_pos h]
    exact ⟨List.drop_left _ _, rfl⟩
  · simp only at h
    have h1 : ¬ (s.is_ht = 1 ∧ c_div (((s.bus.val s.bus.log.length <<< 8 |||
        s.bus.val (s.bus.log.length + 1) : Nat)) : Int) 5 < 70) := by
      intro c; omega
    rw [if_neg h1, if_pos h]
    exact ⟨List.drop_left _ _, rfl⟩
  · simp only at h
    rw [if_neg h.1, if_neg h.2]
    exact ⟨List.drop_left _ _, rfl⟩

/-- With the flag at 0 and every proxy at most 71, no call rewrites and the flag stays 0. -/
theorem trace_quiet_low (n : Nat) : ∀ s : sensor_state, s.is_ht = 0 →
    (∀ x ∈ get_temp_trace n s, x.1 ≤ 71) →
    (∀ x ∈ get_temp_trace n s, x.2 = temp_reads) ∧ (get_temp_iter n s).is_ht = 0 := by
  induction n with
  | zero => intro s h0 _; exact ⟨by simp [get_temp_trace], h0⟩
  | succ n ih =>
    intro s h0 hall
    simp only [get_temp_trace, List.mem_cons, forall_eq_or_imp] at hall ⊢
    obtain ⟨hp, hrest⟩ := hall
    have hq := (get_temp_step s).2.2 ⟨by omega, by omega⟩
    have := ih (sensor_get_temp s).2.2 (hq.2.trans h0) hrest
    exact ⟨⟨hq.1, this.1⟩, this.2⟩

/-- With the flag at 1 and every proxy at least 70, no call rewrites and the flag stays 1. -/
theorem trace_quiet_high (n : Nat) : ∀ s : sensor_state, s.is_ht = 1 →
    (∀ x ∈ get_temp_trace n s, 70 ≤ x.1) →
    (∀ x ∈ get_temp_trace n s, x.2 = temp_reads) ∧ (get_temp_iter n s).is_ht = 1 := by
  induction n with
  | zero => intro s h0 _; exact ⟨by simp [get_temp_trace], h0⟩
  | succ n ih =>
    intro s h0 hall
    simp only [get_temp_trace, List.mem_cons, forall_eq_or_imp] at hall ⊢
    obtain ⟨hp, hrest⟩ := hall
    have hq := (get_temp_step s).2.2 ⟨by omega, by omega⟩
    have := ih (sensor_get_temp s).2.2 (hq.2.trans h0) hrest
    exact ⟨⟨hq.1, this.1⟩, this.2⟩

/-- With every proxy in the band [70, 71] no call rewrites, whatever the flag is. -/
theorem trace_quiet_band (n : Nat) : ∀ s : sensor_state,
    (∀ x ∈ get_temp_trace n s, 70 ≤ x.1 ∧ x.1 ≤ 71) →
    ∀ x ∈ get_temp_trace n s, x.2 = temp_reads := by
  induction n with
  | zero => intro s _; simp [get_temp_trace]
  | succ n ih =>
    intro s hall
    simp only [get_temp_trace, List.mem_cons, forall_eq_or_imp] at hall ⊢
    obtain ⟨hp, hrest⟩ := hall
    have hq := (get_temp_step s).2.2 ⟨by omega, by omega⟩
    exact ⟨hq.1, ih _ hrest⟩

/-- A falling run of proxies that gets below 70, started with the flag at 1: exactly one
call rewrites (the low rewrite), the first whose proxy is below 70. -/
theorem trace_falling (n : Nat) : ∀ s : sensor_state, s.is_ht = 1 →
    List.Pairwise (fun a b => b ≤ a) ((get_temp_trace n s).map Prod.fst) →
    (∃ x ∈ get_temp_trace n s, x.1 < 70) →
    ∃ (pre : List (Int × List cci_op)) (p : Int) (post : List (Int × List cci_op)),
      get_temp_trace n s = pre ++ (p, temp_reads ++ temp_rewrite_low) :: post ∧
      (∀ x ∈ pre, 70 ≤ x.1 ∧ x.2 = temp_reads) ∧ p < 70 ∧
      (∀ x ∈ post, x.2 = temp_reads) ∧ (get_temp_iter n s).is_ht = 0 := by
  induction n with
  | zero => intro s _ _ hex; simp [get_temp_trace] at hex
  | succ n ih =>
    intro s h1 hpw hex
    simp only [get_temp_trace, List.map_cons, List.pairwise_cons, List.mem_map,
      forall_exists_index, and_imp, forall_apply_eq_imp_iff₂] at hpw
    obtain ⟨hle, hpw'⟩ := hpw
    by_cases hp : (sensor_get_temp s).2.1 < 70
    · have hq := (get_temp_step s).1 ⟨h1, hp⟩
      have hrest := trace_quiet_low n (sensor_get_temp s).2.2 hq.2
        (fun x hx => by have := hle x hx; omega)
      refine ⟨[], (sensor_get_temp s).2.1, get_temp_trace n (sensor_get_temp s).2.2,
        ?_, by simp, hp, hrest.1, hrest.2⟩
      simp only [get_temp_trace, List.nil_append, hq.1]
    · have hq := (get_temp_step s).2.2 ⟨by omega, by omega⟩
      have hex' : ∃ x ∈ get_temp_trace n (sensor_get_temp s).2.2, x.1 < 70 := by
        obtain ⟨x, hx, hx70⟩ := hex
        simp only [get_temp_trace, List.mem_cons] at hx
        rcases hx with rfl | hx
        · exact absurd hx70 hp
        · exact ⟨x, hx, hx70⟩
      obtain ⟨pre, p, post, e, hpre, hp70, hpost, hfin⟩ :=
        ih (sensor_get_temp s).2.2 (hq.2.trans h1) hpw' hex'
      refine ⟨((sensor_get_temp s).2.1, temp_reads) :: pre, p, post, ?_, ?_, hp70, hpost,
        hfin⟩
      · simp only [get_temp_trace, hq.1, e, List.cons_append]
      · intro x hx
        simp only [List.mem_cons] at hx
        rcases hx with rfl | hx
        · exact ⟨by simp only; omega, rfl⟩
        · exact hpre x hx

/-- A rising run of proxies that gets above 71, started with the flag at 0: exactly one
call rewrites (the high rewrite), the first whose proxy is above 71. -/
theorem trace_rising (n : Nat) : ∀ s : sensor_state, s.is_ht = 0 →
    List.Pairwise (fun a b => a ≤ b) ((get_temp_trace n s).map Prod.fst) →
    (∃ x ∈ get_temp_trace n s, 71 < x.1) →
    ∃ (pre : List (Int × List cci_op)) (p : Int) (post : List (Int × List cci_op)),
      get_temp_trace n s = pre ++ (p, temp_reads ++ temp_rewrite_high) :: post ∧
      (∀ x ∈ pre, x.1 ≤ 71 ∧ x.2 = temp_reads) ∧ 71 < p ∧
      (∀ x ∈ post, x.2 = temp_reads) ∧ (get_temp_iter n s).is_ht = 1 := by
  induction n with
  | zero => intro s _ _ hex; simp [get_temp_trace] at hex
  | succ n ih =>
    intro s h0 hpw hex
    simp only [get_temp_trace, List.map_cons, List.pairwise_cons, List.mem_map,
      forall_exists_index, and_imp, forall_apply_eq_imp_iff₂] at hpw
    obtain ⟨hle, hpw'⟩ := hpw
    by_cases hp : 71 < (sensor_get_temp s).2.1
    · have hq := (get_temp_step s).2.1 ⟨h0, hp⟩
      have hrest := trace_quiet_high n (sensor_get_temp s).2.2 hq.2
        (fun x hx => by have := hle x hx; omega)
      refine ⟨[], (sensor_get_temp s).2.1, get_temp_trace n (sensor_get_temp s).2.2,
        ?_, by simp, hp, hrest.1, hrest.2⟩
      simp only [get_temp_trace, List.nil_append, hq.1]
    · have hq := (get_temp_step s).2.2 ⟨by omega, by omega⟩
      have hex' : ∃ x ∈ get_temp_trace n (sensor_get_temp s).2.2, 71 < x.1 := by
        obtain ⟨x, hx, hx71⟩ := hex
        simp only [get_temp_trace, List.mem_cons] at hx
        rcases hx with rfl | hx
        · exact absurd hx71 hp
        · exact ⟨x, hx, hx71⟩
      obtain ⟨pre, p, post, e, hpre, hp71, hpost, hfin⟩ :=
        ih (sensor_get_temp s).2.2 (hq.2.trans h0) hpw' hex'
      refine ⟨((sensor_get_temp s).2.1, temp_reads) :: pre, p, post, ?_, ?_, hp71, hpost,
        hfin⟩
      · simp only [get_temp_trace, hq.1, e, List.cons_append]
      · intro x hx
        simp only [List.mem_cons] at hx
        rcases hx with rfl | hx
        · exact ⟨by simp only; omega, rfl⟩
        · exact hpre x hx

/-- C13: starting from the initial hysteresis state (`is_ht = 1`), for every
non-increasing sequence of proxy values that begins at 70 or above and ends below 70,
the successive `sensor_get_temp` calls perform exactly one calibration rewrite, at the
first value below 70 (every call before it sees a proxy of at least 70 and only reads,
every call after it only reads); for every subsequent non-decreasing sequence that ends
above 71 they perform exactly one further rewrite, at the first value above 71; and for
every sequence whose values all lie in [70, 71] they perform none. -/
theorem C13_thermal_hysteresis_sequences (s : sensor_state) (n1 n2 : Nat)
    (h0 : s.is_ht = 1) :
    (List.Pairwise (fun a b => b ≤ a) ((get_temp_trace n1 s).map Prod.fst) →
      (∃ p0, ((get_temp_trace n1 s).map Prod.fst).head? = some p0 ∧ 70 ≤ p0) →
      (∃ pl, ((get_temp_trace n1 s).map Prod.fst).getLast? = some pl ∧ pl < 70) →
      (∃ (pre : List (Int × List cci_op)) (p : Int) (post : List (Int × List cci_op)),
        get_temp_trace n1 s = pre ++ (p, temp_reads ++ temp_rewrite_low) :: post ∧
        (∀ x ∈ pre, 70 ≤ x.1 ∧ x.2 = temp_reads) ∧ p < 70 ∧
        (∀ x ∈ post, x.2 = temp_reads)) ∧
      (List.Pairwise (fun a b => a ≤ b)
          ((get_temp_trace n2 (get_temp_iter n1 s)).map Prod.fst) →
        (∃ pl, ((get_temp_trace n2 (get_temp_iter n1 s)).map Prod.fst).getLast? = some pl ∧
          71 < pl) →
        ∃ (pre : List (Int × List cci_op)) (p : Int) (post : List (Int × List cci_op)),
          get_temp_trace n2 (get_temp_iter n1 s) =
            pre ++ (p, temp_reads ++ temp_rewrite_high) :: post ∧
          (∀ x ∈ pre, x.1 ≤ 71 ∧ x.2 = temp_reads) ∧ 71 < p ∧
          (∀ x ∈ post, x.2 = temp_reads))) ∧
    ((∀ x ∈ get_temp_trace n1 s, 70 ≤ x.1 ∧ x.1 ≤ 71) →
      ∀ x ∈ get_temp_trace n1 s, x.2 = temp_reads) := by
  refine ⟨fun hpw _ hlast => ?_, trace_quiet_band n1 s⟩
  have hex : ∃ x ∈ get_temp_trace n1 s, x.1 < 70 := by
    obtain ⟨pl, hpl, hlt⟩ := hlast
    have hm := List.mem_of_getLast?_eq_some hpl
    obtain ⟨x, hx, rfl⟩ := List.mem_map.1 hm
    exact ⟨x, hx, hlt⟩
  obtain ⟨pre, p, post, e, hpre, hp, hpost, hfin⟩ := trace_falling n1 s h0 hpw hex
  refine ⟨⟨pre, p, post, e, hpre, hp, hpost⟩, fun hpw2 hlast2 => ?_⟩
  have hex2 : ∃ x ∈ get_temp_trace n2 (get_temp_iter n1 s), 71 < x.1 := by
    obtain ⟨pl, hpl, hlt⟩ := hlast2
    have hm := List.mem_of_getLast?_eq_some hpl
    obtain ⟨x, hx, rfl⟩ := List.mem_map.1 hm
    exact ⟨x, hx, hlt⟩
  obtain ⟨pre2, p2, post2, e2, hpre2, hp2, hpost2, -⟩ :=
    trace_rising n2 (get_temp_iter n1 s) hfin hpw2 hex2
  exact ⟨pre2, p2, post2, e2, hpre2, hp2, hpost2⟩

/-- C13 on a scripted bus: the proxies 80, 60 (falling) give one low rewrite at 60, then
the proxies 60, 80 (rising) give one high rewrite at 80. -/
theorem C13_thermal_hysteresis_sequences_witness :
    (probe_state (script_bus [1, 144, 1, 44, 0, 0, 1, 44, 1, 144]) sensor_win_sizes_0).is_ht
      = 1 ∧
    get_temp_trace 2
      (probe_state (script_bus [1, 144, 1, 44, 0, 0, 1, 44, 1, 144]) sensor_win_sizes_0) =
      [(80, temp_reads), (60, temp_reads ++ temp_rewrite_low)] ∧
    get_temp_trace 2 (get_temp_iter 2
      (probe_state (script_bus [1, 144, 1, 44, 0, 0, 1, 44, 1, 144]) sensor_win_sizes_0)) =
      [(60, temp_reads), (80, temp_reads ++ temp_rewrite_high)] ∧
    (∃ (pre : List (Int × List cci_op)) (p : Int) (post : List (Int × List cci_op)),
      get_temp_trace 2 (get_temp_iter 2
        (probe_state (script_bus [1, 144, 1, 44, 0, 0, 1, 44, 1, 144]) sensor_win_sizes_0)) =
        pre ++ (p, temp_reads ++ temp_rewrite_high) :: post ∧
      (∀ x ∈ pre, x.1 ≤ 71 ∧ x.2 = temp_reads) ∧ 71 < p ∧
      (∀ x ∈ post, x.2 = temp_reads)) := by
  have t1 : get_temp_trace 2
      (probe_state (script_bus [1, 144, 1, 44, 0, 0, 1, 44, 1, 144]) sensor_win_sizes_0) =
      [(80, temp_reads), (60, temp_reads ++ temp_rewrite_low)] := by decide
  have t2 : get_temp_trace 2 (get_temp_iter 2
      (probe_state (script_bus [1, 144, 1, 44, 0, 0, 1, 44, 1, 144]) sensor_win_sizes_0)) =
      [(60, temp_reads), (80, temp_reads ++ temp_rewrite_high)] := by decide
  have h := (C13_thermal_hysteresis_sequences
    (probe_state (script_bus [1, 144, 1, 44, 0, 0, 1, 44, 1, 144]) sensor_win_sizes_0)
    2 2 rfl).1
    (by rw [t1]; decide) (by rw [t1]; exact ⟨80, rfl, by decide⟩)
    (by rw [t1]; exact ⟨60, rfl, by decide⟩)
  exact ⟨rfl, t1, t2, h.2 (by rw [t2]; decide) (by rw [t2]; exact ⟨80, rfl, by decide⟩)⟩

/-! ## Identity check with accumulating retries (C14) -/

theorem id_reads_length (k : Nat) : (id_reads k).length = 2 * k := by
  induction k with
  | zero => rfl
  | succ k ih => simp only [id_reads, List.length_append, ih]; rfl

/-- Bits only accumulate in the identity word. -/
theorem id_acc_mono (val : Nat → Nat) (n0 j : Nat) (i : Nat)
    (hb : (id_acc val n0 j).testBit i = true) :
    ∀ m, j ≤ m → (id_acc val n0 m).testBit i = true := by
  intro m hm
  induction m with
  | zero =>
    have : j = 0 := by omega
    subst this; exact hb
  | succ m ih =>
    rcases Nat.lt_or_ge j (m + 1) with hlt | hge
    · simp only [id_acc, Nat.testBit_or, ih (by omega), Bool.true_or]
    · have : j = m + 1 := by omega
      subst this; exact hb

/-- The retry loop of `sensor_detect`, entered after `k` read pairs with `6 - k` rounds
of fuel: it stops after `m` pairs, `m` the first count from `k` on at which the
accumulated word matches, or 6. -/
theorem sensor_detect_loop_spec (fuel : Nat) :
    ∀ (k : Nat) (d : cci_dev) (L0 : List cci_op), fuel + k = 6 → 1 ≤ k →
      d.log = L0 ++ id_reads k →
      ∃ m, k ≤ m ∧ m ≤ 6 ∧
        (∀ j, k ≤ j → j < m → id_acc d.val L0.length j ≠ V4L2_IDENT_SENSOR) ∧
        (m < 6 → id_acc d.val L0.length m = V4L2_IDENT_SENSOR) ∧
        sensor_detect_loop fuel (id_acc d.val L0.length k) ((k : Int) - 1) d =
          (id_acc d.val L0.length m, { d with log := L0 ++ id_reads m }) := by
  induction fuel with
  | zero =>
    intro k d L0 hk _ hlog
    have : k = 6 := by omega
    subst this
    refine ⟨6, le_refl _, le_refl _, fun j h1 h2 => by omega, fun h => by omega, ?_⟩
    simp only [sensor_detect_loop, ← hlog]
  | succ fuel ih =>
    intro k d L0 hk hk1 hlog
    by_cases hacc : id_acc d.val L0.length k = V4L2_IDENT_SENSOR
    · refine ⟨k, le_refl _, by omega, fun j h1 h2 => by omega, fun _ => hacc, ?_⟩
      simp only [sensor_detect_loop, hacc, ne_eq, not_true_eq_false, false_and, if_false,
        ← hlog]
    · have hcnt : ((k : Int) - 1) < 5 := by omega
      have hlen : d.log.length = L0.length + 2 * k := by
        rw [hlog, List.length_append, id_reads_length]
      obtain ⟨m, hm1, hm2, hm3, hm4, hm5⟩ :=
        ih (k + 1) (sensor_read (sensor_read d 0x3107).2.2 0x3108).2.2 L0 (by omega)
          (by omega) (by simp [sensor_read, id_reads, hlog])
      refine ⟨m, by omega, hm2, ?_, hm4, ?_⟩
      · intro j h1 h2
        rcases Nat.eq_or_lt_of_le h1 with rfl | hlt
        · exact hacc
        · exact hm3 j hlt h2
      · have hstep : sensor_detect_loop (fuel + 1) (id_acc d.val L0.length k)
            ((k : Int) - 1) d =
            sensor_detect_loop fuel (id_acc d.val L0.length (k + 1)) (((k + 1 : Nat) : Int) - 1)
              (sensor_read (sensor_read d 0x3107).2.2 0x3108).2.2 := by
          simp only [sensor_detect_loop, ne_eq, hacc, not_false_eq_true, hcnt, and_self,
            if_true]
          have e1 : ((k : Int) - 1 + 1) = ((k + 1 : Nat) : Int) - 1 := by push_cast; ring
          rw [e1]
          congr 1
          simp only [sensor_read, id_acc, List.length_append, List.length_singleton, hlen,
            Nat.or_assoc]
        rw [hstep]
        exact hm5

/-- The whole effect of `sensor_detect`: `m` read pairs, `m` the first count in 1..6 at
which the accumulated word matches, or 6; the result is 0 exactly on a match. -/
theorem sensor_detect_spec (s : sensor_state) :
    ∃ m, 1 ≤ m ∧ m ≤ 6 ∧
      (∀ j, 1 ≤ j → j < m → id_acc s.bus.val s.bus.log.length j ≠ V4L2_IDENT_SENSOR) ∧
      (m < 6 → id_acc s.bus.val s.bus.log.length m = V4L2_IDENT_SENSOR) ∧
      sensor_detect s =
        (if id_acc s.bus.val s.bus.log.length m ≠ V4L2_IDENT_SENSOR then -ENODEV else 0,
         { s with bus := { s.bus with log := s.bus.log ++ id_reads m } }) := by
  obtain ⟨m, hm1, hm2, hm3, hm4, hm5⟩ :=
    sensor_detect_loop_spec 5 1 (sensor_read (sensor_read s.bus 0x3107).2.2 0x3108).2.2
      s.bus.log rfl (le_refl _) (by simp [sensor_read, id_reads])
  refine ⟨m, hm1, hm2, hm3, hm4, ?_⟩
  have hinit : (0 ||| (sensor_read s.bus 0x3107).2.1 <<< 8) |||
      (sensor_read (sensor_read s.bus 0x3107).2.2 0x3108).2.1 =
      id_acc s.bus.val s.bus.log.length 1 := by
    simp only [sensor_read, id_acc, List.length_append, List.length_singleton, Nat.zero_or,
      Nat.mul_zero, Nat.add_zero]
  have hloop : sensor_detect_loop 5 ((0 ||| (sensor_read s.bus 0x3107).2.1 <<< 8) |||
      (sensor_read (sensor_read s.bus 0x3107).2.2 0x3108).2.1) 0
      (sensor_read (sensor_read s.bus 0x3107).2.2 0x3108).2.2 =
      (id_acc s.bus.val s.bus.log.length m,
        { s.bus with log := s.bus.log ++ id_reads m }) := by
    rw [hinit]
    exact hm5
  simp only [sensor_detect, hloop]
  split_ifs <;> rfl

/-- C14: for every sequence of byte pairs `(h_i, l_i)` delivered by the identity
registers 0x3107/0x3108, with `A_k` the bitwise OR of `(h_i << 8) | l_i` for `i = 1..k`:
`sensor_detect` performs `m` read pairs with `1 ≤ m ≤ 6` (one initial attempt plus at
most 5 retries), stops at the first `k` with `A_k = 0xdc42`, and returns 0 iff such a
`k ≤ 6` exists, otherwise `-ENODEV`.  In particular, once some attempt made has
contributed a bit outside 0xdc42, detection fails whatever the later reads deliver; and
`sensor_init` returns that error without touching the session fields. -/
theorem C14_identity_accumulating_retries (s : sensor_state) :
    ∃ m, 1 ≤ m ∧ m ≤ 6 ∧
      (sensor_detect s).2.bus.log = s.bus.log ++ id_reads m ∧
      (∀ k, 1 ≤ k → k < m → id_acc s.bus.val s.bus.log.length k ≠ 0xdc42) ∧
      (m < 6 → id_acc s.bus.val s.bus.log.length m = 0xdc42) ∧
      ((sensor_detect s).1 = 0 ↔
        ∃ k, 1 ≤ k ∧ k ≤ 6 ∧ id_acc s.bus.val s.bus.log.length k = 0xdc42) ∧
      ((¬ ∃ k, 1 ≤ k ∧ k ≤ 6 ∧ id_acc s.bus.val s.bus.log.length k = 0xdc42) →
        (sensor_detect s).1 = -ENODEV) ∧
      (∀ j i, 1 ≤ j → j ≤ m →
        (id_acc s.bus.val s.bus.log.length j).testBit i = true →
        Nat.testBit 0xdc42 i = false → (sensor_detect s).1 = -ENODEV) ∧
      ((sensor_detect s).1 ≠ 0 →
        (sensor_init s).1 = (sensor_detect s).1 ∧ (sensor_init s).2.info = s.info) := by
  obtain ⟨m, hm1, hm2, hm3, hm4, hm5⟩ := sensor_detect_spec s
  have hiff : id_acc s.bus.val s.bus.log.length m = V4L2_IDENT_SENSOR ↔
      ∃ k, 1 ≤ k ∧ k ≤ 6 ∧ id_acc s.bus.val s.bus.log.length k = 0xdc42 := by
    constructor
    · intro h; exact ⟨m, hm1, hm2, h⟩
    · rintro ⟨k, hk1, hk6, hk⟩
      rcases Nat.lt_or_ge k m with hlt | hge
      · exact absurd hk (hm3 k hk1 hlt)
      · rcases Nat.lt_or_ge m 6 with h6 | h6
        · exact hm4 h6
        · have : k = m := by omega
          subst this; exact hk
  have hret : (sensor_detect s).1 =
      if id_acc s.bus.val s.bus.log.length m ≠ V4L2_IDENT_SENSOR then -ENODEV else 0 := by
    rw [hm5]
  refine ⟨m, hm1, hm2, by rw [hm5], hm3, hm4, ?_, ?_, ?_, ?_⟩
  · rw [hret, ← hiff]
    by_cases h : id_acc s.bus.val s.bus.log.length m = V4L2_IDENT_SENSOR
    · simp [h]
    · simp [h, ENODEV]
  · intro hno
    rw [hret, if_pos (fun h => hno (hiff.1 h))]
  · intro j i hj1 hjm hbit hout
    have hbm := id_acc_mono s.bus.val s.bus.log.length j i hbit m hjm
    have hne : id_acc s.bus.val s.bus.log.length m ≠ V4L2_IDENT_SENSOR := by
      intro h
      rw [h] at hbm
      have : Nat.testBit V4L2_IDENT_SENSOR i = false := hout
      rw [this] at hbm
      exact Bool.false_ne_true hbm
    rw [hret, if_pos hne]
  · intro hne
    have : sensor_init s = sensor_detect s := by
      simp only [sensor_init, if_pos hne]
    rw [this]
    exact ⟨rfl, by rw [hm5]⟩

/-- C14 on scripted buses: the pairs (0xdc, 0x40), (0x00, 0x02) accumulate to 0xdc42 at
the second attempt, so four reads are made and 0 is returned; a first pair (0xdc, 0x43)
carries bit 0, outside 0xdc42, so detection ends in `-ENODEV` after six pairs even though
every later pair is (0xdc, 0x42). -/
theorem C14_identity_accumulating_retries_witness :
    sensor_detect (probe_state (script_bus [0xdc, 0x40, 0x00, 0x02]) sensor_win_sizes_0) =
      (0, { probe_state (script_bus [0xdc, 0x40, 0x00, 0x02]) sensor_win_sizes_0 with
            bus := { script_bus [0xdc, 0x40, 0x00, 0x02] with log := id_reads 2 } }) ∧
    (sensor_detect (probe_state
      (script_bus [0xdc, 0x43, 0xdc, 0x42, 0xdc, 0x42, 0xdc, 0x42, 0xdc, 0x42, 0xdc, 0x42])
      sensor_win_sizes_0)).1 = -ENODEV := by
  constructor
  · rfl
  · obtain ⟨m, hm1, -, -, -, -, -, -, hstray, -⟩ := C14_identity_accumulating_retries
      (probe_state
        (script_bus [0xdc, 0x43, 0xdc, 0x42, 0xdc, 0x42, 0xdc, 0x42, 0xdc, 0x42, 0xdc, 0x42])
        sensor_win_sizes_0)
    exact hstray 1 0 (le_refl _) hm1 (by decide) (by decide)

/-! ## Bus errors in the exposure, gain and fps calls (C15) -/

/-- C15 as stated fails: on a bus where every write fails with -5, `sensor_s_exp`,
`sensor_s_gain`, `sensor_s_exp_gain` and `sensor_s_fps` each issue their writes (the
first of which is shown failing) and still return 0. -/
theorem C15_bus_errors_counterexample :
    (sensor_write (fault_bus (fun _ => true)) 0x3e02 0x40).1 = -5 ∧
    (sensor_s_exp (probe_state (fault_bus (fun _ => true)) sensor_win_sizes_0) 0x5D40)
      = (0, { probe_state (fault_bus (fun _ => true)) sensor_win_sizes_0 with
              bus := { fault_bus (fun _ => true) with
                log := [cci_op.wr 0x3e02 0x40, cci_op.wr 0x3e01 0x5D, cci_op.wr 0x3e00 0x00] },
              info := { (probe_state (fault_bus (fun _ => true)) sensor_win_sizes_0).info with
                exp := 0x5D40 } }) ∧
    (sensor_write (fault_bus (fun _ => true)) 0x3e09 0x08).1 = -5 ∧
    (sensor_s_gain (probe_state (fault_bus (fun _ => true)) sensor_win_sizes_0) 32).1 = 0 ∧
    (sensor_s_gain (probe_state (fault_bus (fun _ => true)) sensor_win_sizes_0) 32).2.bus.log
      = [cci_op.wr 0x3e09 0x08, cci_op.wr 0x3e07 0x80, cci_op.wr 0x3e06 0x00] ∧
    (sensor_s_exp_gain (probe_state (fault_bus (fun _ => true)) sensor_win_sizes_0)
      (sensor_exp_gain.mk 0x5D40 32)).1 = 0 ∧
    (sensor_s_fps (probe_state (fault_bus (fun _ => true)) sensor_win_sizes_0)
      (sensor_fps.mk 10)).map Prod.fst = some 0 := by
  refine ⟨rfl, rfl, rfl, rfl, rfl, rfl, ?_⟩
  rw [sensor_s_fps_eq _ _ (by decide) (by decide)]
  rfl

/-- C15, amended: for each of `sensor_s_exp`, `sensor_s_gain`, `sensor_s_exp_gain` and
`sensor_s_fps`, for every input and whatever return codes the bus gives to its writes,
the operation issues all of its writes and returns 0 (`sensor_s_fps` whenever it returns
at all); the return code of a bus write never reaches the caller. -/
theorem C15_bus_errors_amended (s : sensor_state) (e : Nat) (g : Int)
    (eg : sensor_exp_gain) (fps : sensor_fps) :
    ((sensor_s_exp s e).1 = 0 ∧
      (sensor_s_exp s e).2.bus.log = s.bus.log ++ exp_writes e) ∧
    ((sensor_s_gain s g).1 = 0 ∧
      (sensor_s_gain s g).2.bus.log = s.bus.log ++ gain_writes g) ∧
    ((sensor_s_exp_gain s eg).1 = 0 ∧
      ∃ frame : List cci_op,
        (sensor_s_exp_gain s eg).2.bus.log = s.bus.log ++ frame ++
          exp_writes (u32 (min eg.exp_val 0xFFFFF)) ++ gain_writes (max eg.gain_val 16)) ∧
    (∀ (r : Int) (s' : sensor_state), sensor_s_fps s fps = some (r, s') →
      r = 0 ∧
      s'.bus.log = s.bus.log ++
        [cci_op.wr 0x320f (Int.land (clamped_target_vts s.info.current_wins fps.fps) 0xff),
         cci_op.wr 0x320e (clamped_target_vts s.info.current_wins fps.fps >>> 8)]) := by
  refine ⟨⟨rfl, sensor_s_exp_log_eq s e⟩, ⟨rfl, sensor_s_gain_log_eq s g⟩, ⟨rfl, ?_⟩, ?_⟩
  · by_cases hf : s.sc4336_fps_change_flag = 0
    · rw [sensor_s_exp_gain_idle s eg hf]
      exact ⟨_, rfl⟩
    · rw [sensor_s_exp_gain_busy s eg hf]
      exact ⟨[], by simp⟩
  · intro r s' h
    by_cases h1 : fps.fps = 0
    · simp [sensor_s_fps, h1] at h
    by_cases h2 : s.info.current_wins.hts = 0
    · simp [sensor_s_fps, h2] at h
    rw [sensor_s_fps_eq s fps h1 h2] at h
    simp only [Option.some.injEq, Prod.mk.injEq] at h
    obtain ⟨h3, h4⟩ := h
    subst h3 h4
    exact ⟨rfl, rfl⟩

/-- C15 (amended) on a bus where every write fails: the fps request, when it returns,
returns 0, and it does return. -/
theorem C15_bus_errors_amended_witness :
    (sensor_s_fps (probe_state (fault_bus (fun _ => true)) sensor_win_sizes_0)
      (sensor_fps.mk 10)).isSome = true ∧
    (∀ (r : Int) (s' : sensor_state),
      sensor_s_fps (probe_state (fault_bus (fun _ => true)) sensor_win_sizes_0)
        (sensor_fps.mk 10) = some (r, s') → r = 0) ∧
    (sensor_s_exp (probe_state (fault_bus (fun _ => true)) sensor_win_sizes_0) 0x5D40).1
      = 0 := by
  have h := C15_bus_errors_amended
    (probe_state (fault_bus (fun _ => true)) sensor_win_sizes_0) 0x5D40 32
    (sensor_exp_gain.mk 0x5D40 32) (sensor_fps.mk 10)
  refine ⟨?_, fun r s' hs => (h.2.2.2 r s' hs).1, h.1.1⟩
  rw [sensor_s_fps_eq _ _ (by decide) (by decide)]
  rfl
/-! ## Stream-on: order of the register programs (C16) -/

/-- On a bus whose transactions all succeed, applying a program issues its writes in
order and reports success. -/
theorem sensor_write_array_ok (regs : List regval_list) :
    ∀ d : cci_dev, (∀ i, d.ret i = 0) →
      sensor_write_array d regs =
        (0, { d with log := d.log ++ program_writes regs }) := by
  induction regs with
  | nil => intro d _; simp [sensor_write_array, program_writes]
  | cons r rs ih =>
    intro d hd
    have h1 : (sensor_write d r.addr r.data).1 = 0 := hd _
    simp only [sensor_write_array, h1, ne_eq, not_true_eq_false, if_false]
    rw [ih _ (by intro i; exact hd i)]
    simp [sensor_write, program_writes]

/-- C16: when all bus writes succeed, `sensor_s_stream` with `enable != 0` applies the
register programs in exactly this order with no other transaction interleaved: the
default program, the format program (empty for the raw format), the window program; it
then runs the window's post-program hook if present (and reads 0x3221 for its log
message), sets the session width and height from the current window, primes the current
vts to the window's vts (1800 for the 2560x1440 window), and returns 0. -/
theorem C16_stream_program_order (s : sensor_state) (enable : Int)
    (hen : enable ≠ 0) (hok : ∀ i, s.bus.ret i = 0) :
    ∃ b3 : cci_dev,
      b3 = { s.bus with log := (s.bus.log ++ program_writes sensor_default_regs ++
              program_writes s.info.fmt.regs ++
              program_writes (s.info.current_wins.regs.getD [])) } ∧
      sensor_s_stream s enable =
        (0, { s with
          info := { s.info with width := s.info.current_wins.width,
                                height := s.info.current_wins.height },
          sc4336_sensor_vts := s.info.current_wins.vts,
          bus := (sensor_read
            (match s.info.current_wins.set_size with
              | some set_size => set_size b3
              | none => b3) 0x3221).2.2 }) ∧
      program_writes sensor_formats_0.regs = [] ∧
      (s.info.fmt = sensor_formats_0 → s.info.current_wins = sensor_win_sizes_0 →
        (sensor_s_stream s enable).2.bus.log = s.bus.log ++
          program_writes sensor_default_regs ++ program_writes sensor_default_regs ++
          [cci_op.rd 0x3221] ∧
        (sensor_s_stream s enable).2.sc4336_sensor_vts = 1800 ∧
        (sensor_s_stream s enable).2.info.width = 2560 ∧
        (sensor_s_stream s enable).2.info.height = 1440) := by
  have h1 := sensor_write_array_ok sensor_default_regs s.bus hok
  have h2 := sensor_write_array_ok s.info.fmt.regs
    { s.bus with log := s.bus.log ++ program_writes sensor_default_regs } hok
  have h3 : ∀ regs, sensor_write_array
      { s.bus with log := s.bus.log ++ program_writes sensor_default_regs ++
          program_writes s.info.fmt.regs } regs = _ :=
    fun regs => sensor_write_array_ok regs _ hok
  have hmain : sensor_s_stream s enable =
      (0, { s with
        info := { s.info with width := s.info.current_wins.width,
                              height := s.info.current_wins.height },
        sc4336_sensor_vts := s.info.current_wins.vts,
        bus := (sensor_read
          (match s.info.current_wins.set_size with
            | some set_size => set_size { s.bus with log := (s.bus.log ++
                program_writes sensor_default_regs ++ program_writes s.info.fmt.regs ++
                program_writes (s.info.current_wins.regs.getD [])) }
            | none => { s.bus with log := (s.bus.log ++
                program_writes sensor_default_regs ++ program_writes s.info.fmt.regs ++
                program_writes (s.info.current_wins.regs.getD [])) }) 0x3221).2.2 }) := by
    simp only [sensor_s_stream, if_neg hen, sensor_reg_init, h1, h2, h3]
    cases hr : s.info.current_wins.regs <;> cases hs : s.info.current_wins.set_size <;>
      simp [program_writes]
  refine ⟨_, rfl, hmain, rfl, ?_⟩
  intro hfmt hwin
  rw [hmain, hfmt, hwin]
  simp [sensor_read, sensor_win_sizes_0, sensor_formats_0, sensor_fmt_raw, program_writes]

/-- C16 from the probe state on a bus without faults. -/
theorem C16_stream_program_order_witness :
    ((1 : Int) ≠ 0 ∧ ∀ i, (probe_state (quiet_bus 0) sensor_win_sizes_0).bus.ret i = 0) ∧
    (sensor_s_stream (probe_state (quiet_bus 0) sensor_win_sizes_0) 1).1 = 0 ∧
    (sensor_s_stream (probe_state (quiet_bus 0) sensor_win_sizes_0) 1).2.bus.log =
      program_writes sensor_default_regs ++ program_writes sensor_default_regs ++
        [cci_op.rd 0x3221] ∧
    (sensor_s_stream (probe_state (quiet_bus 0) sensor_win_sizes_0) 1).2.sc4336_sensor_vts
      = 1800 := by
  obtain ⟨b3, -, h2, -, h4⟩ := C16_stream_program_order
    (probe_state (quiet_bus 0) sensor_win_sizes_0) 1 (by decide) (fun _ => rfl)
  have h5 := h4 rfl rfl
  refine ⟨⟨by decide, fun _ => rfl⟩, by rw [h2], ?_, h5.2.1⟩
  rw [h5.1]
  rfl

/-! ## Stream-on when a register program fails (C17) -/

/-- The part of C17 the code fulfils: when the default program fails, `sensor_s_stream`
returns that error and leaves width, height and current vts as they were. -/
theorem stream_default_program_failure (s : sensor_state) (enable : Int) (hen : enable ≠ 0)
    (hfail : (sensor_write_array s.bus sensor_default_regs).1 < 0) :
    (sensor_s_stream s enable).1 = (sensor_write_array s.bus sensor_default_regs).1 ∧
    (sensor_s_stream s enable).2.info = s.info ∧
    (sensor_s_stream s enable).2.sc4336_sensor_vts = s.sc4336_sensor_vts := by
  simp [sensor_s_stream, hen, sensor_reg_init, hfail]

set_option maxRecDepth 100000 in
/-- C17 evaluated where the code departs from it: on a bus whose transaction 139 (the
first write of the window program, after the 139 writes of the default program and the
empty format program) fails, the window program is aborted with an error, yet
`sensor_s_stream` returns 0 and sets width, height and current vts. -/
theorem C17_stream_ignores_window_program_failure :
    (sensor_write_array (fault_bus (fun n => n == 139)) sensor_default_regs).1 = 0 ∧
    (sensor_write_array
      (sensor_write_array (fault_bus (fun n => n == 139)) sensor_default_regs).2
      sensor_default_regs).1 = -1 ∧
    ((probe_state (fault_bus (fun n => n == 139)) sensor_win_sizes_0).info.width = 0 ∧
     (probe_state (fault_bus (fun n => n == 139)) sensor_win_sizes_0).info.height = 0 ∧
     (probe_state (fault_bus (fun n => n == 139)) sensor_win_sizes_0).sc4336_sensor_vts
        = 0) ∧
    (sensor_s_stream (probe_state (fault_bus (fun n => n == 139)) sensor_win_sizes_0) 1).1
      = 0 ∧
    (sensor_s_stream (probe_state (fault_bus (fun n => n == 139))
      sensor_win_sizes_0) 1).2.info.width = 2560 ∧
    (sensor_s_stream (probe_state (fault_bus (fun n => n == 139))
      sensor_win_sizes_0) 1).2.info.height = 1440 ∧
    (sensor_s_stream (probe_state (fault_bus (fun n => n == 139))
      sensor_win_sizes_0) 1).2.sc4336_sensor_vts = 1800 ∧
    (sensor_s_stream (probe_state (fault_bus (fun n => n == 139))
      sensor_win_sizes_0) 1).2.bus.log.length = 141 := by
  refine ⟨by rfl, by rfl, ⟨rfl, rfl, rfl⟩, by rfl, by rfl, by rfl, by rfl, by rfl⟩

/-! ## Exposure register fields (C18) -/

/-- C18 as stated fails: for `e = 1` the claimed low-register value `(e & 0x0f) << 4` is
0x10, but `sensor_s_exp` writes 0x00 to 0x3e02; for `e = 0x10` the claimed value is 0x00,
but 0x10 is written. -/
theorem C18_exposure_low_field_counterexample :
    (sensor_s_exp (probe_state (quiet_bus 0) sensor_win_sizes_0) 1).2.bus.log =
      [cci_op.wr 0x3e02 0x00, cci_op.wr 0x3e01 0x00, cci_op.wr 0x3e00 0x00] ∧
    ((1 &&& 0x0f) <<< 4 : Nat) = 0x10 ∧
    (sensor_s_exp (probe_state (quiet_bus 0) sensor_win_sizes_0) 0x10).2.bus.log =
      [cci_op.wr 0x3e02 0x10, cci_op.wr 0x3e01 0x00, cci_op.wr 0x3e00 0x00] ∧
    ((0x10 &&& 0x0f) <<< 4 : Nat) = 0x00 ∧
    cci_op.wr 0x3e02 0x00 ≠ cci_op.wr 0x3e02 (((1 &&& 0x0f) <<< 4 : Nat) : Int) := by
  refine ⟨rfl, rfl, rfl, rfl, by decide⟩

/-- C18, amended: for every exposure value `e`, the value `sensor_s_exp` writes to the
low exposure register 0x3e02 is bits 4-7 of `e` kept in place in the high nibble, i.e.
`e & 0xf0` (which is `((e >> 4) & 0x0f) << 4`), with its low nibble zero; the value
written to 0x3e01 is bits 8-15 of `e` and the value written to 0x3e00 is bits 16-19 of
`e` in the low nibble. -/
theorem C18_exposure_fields_amended (s : sensor_state) (e : Nat) :
    (sensor_s_exp s e).2.bus.log = s.bus.log ++
      [cci_op.wr 0x3e02 ((e &&& 0xf0 : Nat) : Int),
       cci_op.wr 0x3e01 (((e >>> 8) &&& 0xff : Nat) : Int),
       cci_op.wr 0x3e00 (((e >>> 16) &&& 0x0f : Nat) : Int)] ∧
    e &&& 0xf0 = ((e >>> 4) &&& 0x0f) <<< 4 ∧
    (e &&& 0xf0) &&& 0x0f = 0 := by
  have h1 : uchar (0xf0 &&& (e <<< 0)) = e &&& 0xf0 := by
    rw [Nat.and_comm e]
    simp only [uchar, Nat.shiftLeft_zero, and_f0_eq]; omega
  have h2 : uchar (0xff &&& (e >>> 8)) = (e >>> 8) &&& 0xff := by
    rw [Nat.and_comm (e >>> 8)]
    simp only [uchar, and_ff_eq_mod]; omega
  have h3 : uchar (0x0f &&& (e >>> 16)) = (e >>> 16) &&& 0x0f := by
    rw [Nat.and_comm (e >>> 16)]
    simp only [uchar, and_0f_eq_mod]; omega
  refine ⟨by rw [sensor_s_exp_log, h1, h2, h3], ?_, ?_⟩
  · rw [Nat.and_comm e, Nat.and_comm (e >>> 4), and_f0_eq, and_0f_eq_mod,
      Nat.shiftRight_eq_div_pow, Nat.shiftLeft_eq]
    omega
  · rw [Nat.and_comm e, Nat.and_comm _ 0x0f, and_f0_eq, and_0f_eq_mod]
    omega

/-! ## Reference scenario: stream-on, then exposure and gain (C20) -/

/-- The shift `x >> n` on `int` is the floor of `x / 2^n` (arithmetic shift). -/
theorem int_shr_eq_div (x : Int) (n : Nat) :
    x >>> (n : Int) = x / ((2 ^ n : Nat) : Int) := by
  cases x with
  | ofNat m =>
    rw [Int.ofNat_eq_coe, Int.shiftRight_coe_nat, Nat.shiftRight_eq_div_pow]
    exact Int.ofNat_ediv m (2 ^ n)
  | negSucc m =>
    rw [Int.shiftRight_negSucc, Nat.shiftRight_eq_div_pow]
    have hpos : (0 : Int) < ((2 ^ n : Nat) : Int) := by positivity
    rw [Int.negSucc_ediv m hpos, Int.negSucc_eq]
    show -(((m / 2 ^ n : Nat) : Int) + 1) = -((m : Int) / ((2 ^ n : Nat) : Int) + 1)
    rw [Int.ofNat_ediv]

theorem shr4_eq (x : Int) : x >>> 4 = x / 16 := by
  have := int_shr_eq_div x 4
  simpa using this

/-- After a successful stream-on the current vts is the window's vts. -/
theorem stream_success_primes_vts (s : sensor_state) (enable : Int) (hen : enable ≠ 0)
    (hret : (sensor_s_stream s enable).1 = 0) :
    (sensor_s_stream s enable).2.sc4336_sensor_vts = s.info.current_wins.vts := by
  by_cases hfail : (sensor_write_array s.bus sensor_default_regs).1 < 0
  · have h := (stream_default_program_failure s enable hen hfail).1
    omega
  · simp [sensor_s_stream, hen, sensor_reg_init, hfail]

/-- C20: after a successful stream-enable on the 2560x1440 window (hts 2800, vts 1800,
pclk 126000000, `intg_max = (1800 - 8) * 16 = 28672`), with no fps change in progress,
for every exposure `e` whose shutter `e >> 4` does not exceed 1792 - in particular every
`e` in the window's `[intg_min, intg_max]` and `e = 0x5D40` - and every gain,
`sensor_s_exp_gain` writes the frame length 1800, i.e. 0x08 to 0x320f and then 0x07 to
0x320e; and with gain 32 it writes the analog-gain code 0x08 to 0x3e09. -/
theorem C20_reference_scenario (s : sensor_state) (enable : Int) (eg : sensor_exp_gain)
    (hwin : s.info.current_wins = sensor_win_sizes_0)
    (hflag : s.sc4336_fps_change_flag = 0)
    (hen : enable ≠ 0) (hret : (sensor_s_stream s enable).1 = 0)
    (hsh : eg.exp_val >>> 4 ≤ 1792) :
    (sensor_s_exp_gain (sensor_s_stream s enable).2 eg).2.bus.log =
      (sensor_s_stream s enable).2.bus.log ++
        [cci_op.wr 0x320f 0x08, cci_op.wr 0x320e 0x07] ++
        exp_writes (u32 eg.exp_val) ++ gain_writes (max eg.gain_val 16) ∧
    (eg.gain_val = 32 → ∃ dl dh : Int, gain_writes (max eg.gain_val 16) =
      [cci_op.wr 0x3e09 0x08, cci_op.wr 0x3e07 dl, cci_op.wr 0x3e06 dh]) ∧
    (sensor_win_sizes_0.hts = 2800 ∧ sensor_win_sizes_0.vts = 1800 ∧
      sensor_win_sizes_0.pclk = 126000000 ∧
      sensor_win_sizes_0.intg_max = (1800 - 8) * 16 ∧
      sensor_win_sizes_0.intg_max = 28672) ∧
    (∀ e : Int, sensor_win_sizes_0.intg_min ≤ e → e ≤ sensor_win_sizes_0.intg_max →
      e >>> 4 ≤ 1792) ∧
    (0x5D40 : Int) >>> 4 ≤ 1792 := by
  have hvts : (sensor_s_stream s enable).2.sc4336_sensor_vts = 1800 := by
    rw [stream_success_primes_vts s enable hen hret, hwin]; rfl
  have hfl : (sensor_s_stream s enable).2.sc4336_fps_change_flag = 0 :=
    (sensor_s_stream_flag s enable).trans hflag
  have hsh' : eg.exp_val / 16 ≤ 1792 := by
    rw [← shr4_eq]; exact hsh
  have hmin : min eg.exp_val 0xfffff = eg.exp_val := by omega
  refine ⟨?_, ?_, ⟨rfl, rfl, rfl, by decide, by decide⟩, ?_, by decide⟩
  · rw [sensor_s_exp_gain_idle _ eg hfl, hvts, hmin]
    have hnot : ¬ (eg.exp_val >>> 4 > 1800 - 8) := by rw [shr4_eq]; omega
    simp only [if_neg hnot]
    rfl
  · intro hg
    rw [hg]
    exact ⟨_, _, rfl⟩
  · intro e _ hmax
    have h1 : sensor_win_sizes_0.intg_max = 28672 := by decide
    rw [shr4_eq]
    omega

/-- C20 from the probe state on a bus without faults, for `(e, g) = (0x5D40, 32)`. -/
theorem C20_reference_scenario_witness :
    ((probe_state (quiet_bus 0) sensor_win_sizes_0).info.current_wins = sensor_win_sizes_0 ∧
      (probe_state (quiet_bus 0) sensor_win_sizes_0).sc4336_fps_change_flag = 0 ∧
      (1 : Int) ≠ 0 ∧
      (sensor_s_stream (probe_state (quiet_bus 0) sensor_win_sizes_0) 1).1 = 0 ∧
      (0x5D40 : Int) >>> 4 ≤ 1792) ∧
    (sensor_s_exp_gain (sensor_s_stream (probe_state (quiet_bus 0) sensor_win_sizes_0) 1).2
      (sensor_exp_gain.mk 0x5D40 32)).2.bus.log =
      (sensor_s_stream (probe_state (quiet_bus 0) sensor_win_sizes_0) 1).2.bus.log ++
        [cci_op.wr 0x320f 0x08, cci_op.wr 0x320e 0x07,
         cci_op.wr 0x3e02 0x40, cci_op.wr 0x3e01 0x5D, cci_op.wr 0x3e00 0x00,
         cci_op.wr 0x3e09 0x08, cci_op.wr 0x3e07 0x80, cci_op.wr 0x3e06 0x00] := by
  have h := (C20_reference_scenario (probe_state (quiet_bus 0) sensor_win_sizes_0) 1
    (sensor_exp_gain.mk 0x5D40 32) rfl rfl (by decide) (by rfl) (by decide)).1
  refine ⟨⟨rfl, rfl, by decide, by rfl, by decide⟩, ?_⟩
  rw [h]
  have e1 : exp_writes (u32 (sensor_exp_gain.mk 0x5D40 32).exp_val) =
      [cci_op.wr 0x3e02 0x40, cci_op.wr 0x3e01 0x5D, cci_op.wr 0x3e00 0x00] := by rfl
  have e2 : gain_writes (max (sensor_exp_gain.mk 0x5D40 32).gain_val 16) =
      [cci_op.wr 0x3e09 0x08, cci_op.wr 0x3e07 0x80, cci_op.wr 0x3e06 0x00] := by rfl
  rw [e1, e2]
  simp

/-! ## Frame-length bytes (C21) -/

theorem shr8_eq (x : Int) : x >>> 8 = x / 256 := by
  have := int_shr_eq_div x 8
  simpa using this

/-- On a non-negative `int`, `x & 0xff` is `x mod 256`. -/
theorem int_land_ff_of_nonneg (x : Int) (h : 0 ≤ x) : Int.land x 0xff = x % 256 := by
  obtain ⟨n, rfl⟩ := Int.eq_ofNat_of_zero_le h
  show ((n &&& 255 : Nat) : Int) = (n : Int) % 256
  have := Nat.and_pow_two_sub_one_eq_mod n 8
  norm_num at this
  rw [this]
  rfl

/-- For a byte `lo` and a non-negative `hi`, `(hi << 8) | lo` is `hi * 256 + lo`. -/
theorem int_shl8_lor (hi lo : Int) (hhi : 0 ≤ hi) (hlo0 : 0 ≤ lo) (hlo : lo < 256) :
    Int.lor (hi <<< (8 : Int)) lo = hi * 256 + lo := by
  obtain ⟨a, rfl⟩ := Int.eq_ofNat_of_zero_le hhi
  obtain ⟨b, rfl⟩ := Int.eq_ofNat_of_zero_le hlo0
  have e1 : (a : Int) <<< (8 : Int) = ((a * 256 : Nat) : Int) := by
    have := Int.shiftLeft_eq_mul_pow (a : Int) 8
    simpa using this
  rw [e1]
  show (((a * 256) ||| b : Nat) : Int) = _
  rw [or_eq_add_of_dvd (a * 256) b 8 (Dvd.intro_left _ rfl) (by norm_num; omega)]
  push_cast
  rfl

/-- C21 as stated fails: for `e = 0xFFFFF` and `V = 1800` with no fps change in progress
the shutter is 0xFFFF and the frame length `0xFFFF + 8 = 65543`; the value written to
0x320e is `65543 >> 8 = 256`, which does not fit in a byte, and `(256 << 8) | 7` keeps
its eight low bits only as 0x0007 in the two 8-bit registers. -/
theorem C21_frame_length_bytes_counterexample :
    ((1 : Int) ≤ 0xFFFFF ∧ (0xFFFFF : Int) ≤ 0xFFFFF ∧ (0 : Int) ≤ 1800 ∧
      (1800 : Int) ≤ 0xFFFF) ∧
    ({ probe_state (quiet_bus 0) sensor_win_sizes_0 with
        sc4336_sensor_vts := 1800 } : sensor_state).sc4336_fps_change_flag = 0 ∧
    (sensor_s_exp_gain
      { probe_state (quiet_bus 0) sensor_win_sizes_0 with sc4336_sensor_vts := 1800 }
      (sensor_exp_gain.mk 0xFFFFF 32)).2.bus.log =
      [cci_op.wr 0x320f 0x07, cci_op.wr 0x320e 256,
       cci_op.wr 0x3e02 0xf0, cci_op.wr 0x3e01 0xff, cci_op.wr 0x3e00 0x0f,
       cci_op.wr 0x3e09 0x08, cci_op.wr 0x3e07 0x80, cci_op.wr 0x3e06 0x00] ∧
    ¬ ((256 : Int) ≤ 0xFF) := by
  refine ⟨by decide, rfl, by rfl, by decide⟩

/-- C21, amended: for every exposure `e ≥ 1` whose shutter `e >> 4` is at most 0xFFF7
(that is `e ≤ 0xFFF7F`) and every current vts `V` in `[0, 0xFFFF]`, when no fps change is
in progress, the two values `sensor_s_exp_gain` writes to the 8-bit frame-length
registers both fit in a byte (`frame_length & 0xff` and `frame_length >> 8` lie in
`[0, 0xFF]`), so that `(high << 8) | low` reconstitutes the computed frame length
exactly. -/
theorem C21_frame_length_bytes_amended (s : sensor_state) (eg : sensor_exp_gain)
    (_he1 : 1 ≤ eg.exp_val) (he2 : eg.exp_val >>> 4 ≤ 0xFFF7)
    (hv : 0 ≤ s.sc4336_sensor_vts ∧ s.sc4336_sensor_vts ≤ 0xFFFF)
    (hf : s.sc4336_fps_change_flag = 0) :
    ∃ frame_length low high : Int,
      frame_length = (if eg.exp_val >>> 4 > s.sc4336_sensor_vts - 8
        then eg.exp_val >>> 4 + 8 else s.sc4336_sensor_vts) ∧
      low = Int.land frame_length 0xff ∧ high = frame_length >>> 8 ∧
      (sensor_s_exp_gain s eg).2.bus.log = s.bus.log ++
        [cci_op.wr 0x320f low, cci_op.wr 0x320e high] ++
        exp_writes (u32 eg.exp_val) ++ gain_writes (max eg.gain_val 16) ∧
      (0 ≤ low ∧ low ≤ 0xFF) ∧ (0 ≤ high ∧ high ≤ 0xFF) ∧
      Int.lor (high <<< (8 : Int)) low = frame_length := by
  have hsh : eg.exp_val / 16 ≤ 0xFFF7 := by rw [← shr4_eq]; exact he2
  have hmin : min eg.exp_val 0xfffff = eg.exp_val := by omega
  have hfl : 0 ≤ (if eg.exp_val >>> 4 > s.sc4336_sensor_vts - 8
      then eg.exp_val >>> 4 + 8 else s.sc4336_sensor_vts) ∧
      (if eg.exp_val >>> 4 > s.sc4336_sensor_vts - 8
      then eg.exp_val >>> 4 + 8 else s.sc4336_sensor_vts) ≤ 0xFFFF := by
    rw [shr4_eq]
    split_ifs <;> omega
  refine ⟨_, _, _, rfl, rfl, rfl, ?_, ?_, ?_, ?_⟩
  · rw [sensor_s_exp_gain_idle s eg hf, hmin]
  · rw [int_land_ff_of_nonneg _ hfl.1]; omega
  · rw [shr8_eq]; omega
  · rw [int_shl8_lor _ _ (by rw [shr8_eq]; omega)
      (by rw [int_land_ff_of_nonneg _ hfl.1]; omega)
      (by rw [int_land_ff_of_nonneg _ hfl.1]; omega)]
    rw [int_land_ff_of_nonneg _ hfl.1, shr8_eq]
    omega

/-- C21 (amended) at `e = 0xFFF7F`, `V = 1800`: the frame length is `0xFFF7 + 8 = 0xFFFF`,
written as 0xFF to 0x320f and 0xFF to 0x320e. -/
theorem C21_frame_length_bytes_amended_witness :
    ((1 : Int) ≤ 0xFFF7F ∧ (0xFFF7F : Int) >>> 4 ≤ 0xFFF7 ∧
      ((0 : Int) ≤ 1800 ∧ (1800 : Int) ≤ 0xFFFF) ∧ (0 : Int) = 0) ∧
    ∃ rest : List cci_op,
      (sensor_s_exp_gain
        { probe_state (quiet_bus 0) sensor_win_sizes_0 with sc4336_sensor_vts := 1800 }
        (sensor_exp_gain.mk 0xFFF7F 32)).2.bus.log =
        [cci_op.wr 0x320f 0xFF, cci_op.wr 0x320e 0xFF] ++ rest := by
  refine ⟨by decide, ?_⟩
  obtain ⟨fl, lo, hi, h1, h2, h3, h4, -⟩ := C21_frame_length_bytes_amended
    { probe_state (quiet_bus 0) sensor_win_sizes_0 with sc4336_sensor_vts := 1800 }
    (sensor_exp_gain.mk 0xFFF7F 32) (by decide) (by decide) (by decide) rfl
  have e1 : fl = 0xFFFF := by rw [h1]; decide
  have e2 : lo = 0xFF := by rw [h2, e1]; decide
  have e3 : hi = 0xFF := by rw [h3, e1]; decide
  rw [e2, e3] at h4
  exact ⟨_, h4⟩

/-! ## Divisors of the fps request (C22) -/

/-- On the catalog window the fps request has a result exactly when the requested rate
is non-zero: `hts = 2800` never vanishes, `fps` is the only divisor that can. -/
theorem sensor_s_fps_catalog_result (s : sensor_state) (fps : sensor_fps)
    (hw : s.info.current_wins = sensor_win_sizes_0) :
    (sensor_ioctl s (ioctl_cmd.VIDIOC_VIN_SENSOR_SET_FPS fps) = none ↔ fps.fps = 0) ∧
    (fps.fps ≠ 0 →
      (sensor_ioctl s (ioctl_cmd.VIDIOC_VIN_SENSOR_SET_FPS fps)).isSome = true) := by
  have hh : s.info.current_wins.hts ≠ 0 := by rw [hw]; decide
  constructor
  · constructor
    · intro h
      by_contra hne
      simp only [sensor_ioctl] at h
      rw [sensor_s_fps_eq s fps hne hh] at h
      exact Option.noConfusion h
    · intro h0
      simp [sensor_ioctl, sensor_s_fps, h0]
  · intro hne
    simp only [sensor_ioctl]
    rw [sensor_s_fps_eq s fps hne hh]
    rfl

/-- C22 evaluated where the code departs from it: the request `fps = 0` reaches
`sensor_s_fps` through `sensor_ioctl` unchecked, the first division `pclk / fps` has the
divisor 0, and the call has no result; the other divisor, `hts = 2800`, is non-zero, and
a negative request such as -1 divides without fault. -/
theorem C22_fps_zero_divisor :
    (sensor_fps.mk 0).fps = 0 ∧
    sensor_s_fps (probe_state (quiet_bus 0) sensor_win_sizes_0) (sensor_fps.mk 0) = none ∧
    sensor_ioctl (probe_state (quiet_bus 0) sensor_win_sizes_0)
      (ioctl_cmd.VIDIOC_VIN_SENSOR_SET_FPS (sensor_fps.mk 0)) = none ∧
    sensor_win_sizes_0.hts ≠ 0 ∧
    (sensor_ioctl (probe_state (quiet_bus 0) sensor_win_sizes_0)
      (ioctl_cmd.VIDIOC_VIN_SENSOR_SET_FPS (sensor_fps.mk (-1)))).isSome = true := by
  refine ⟨rfl, rfl, rfl, by decide, ?_⟩
  exact (sensor_s_fps_catalog_result (probe_state (quiet_bus 0) sensor_win_sizes_0)
    (sensor_fps.mk (-1)) rfl).2 (by decide)

/-! ## Range and monotonicity of the digital-gain low byte (C23) -/

/-- The byte `sensor_s_gain` writes to 0x3e07 is the cast of `gaindiglow_value`. -/
theorem sensor_s_gain_dlow (s : sensor_state) (g : Int) :
    ∃ a dh : Int, (sensor_s_gain s g).2.bus.log = s.bus.log ++
      [cci_op.wr 0x3e09 a,
       cci_op.wr 0x3e07 ((uchar_of_int (gaindiglow_value g) : Nat) : Int),
       cci_op.wr 0x3e06 dh] := by
  rw [sensor_s_gain_log]
  exact ⟨_, _, rfl⟩

/-- The computed digital-gain low value in exact arithmetic: `8 g` in the first bucket
and `4 g / d` in the bucket with divisor `d`. -/
theorem gaindiglow_value_eq (g : Int) (h1 : 16 ≤ g) (h2 : g < 8192) :
    (g < 32 → gaindiglow_value g = g * 8) ∧
    (32 ≤ g → g < 64 → gaindiglow_value g = g * 4) ∧
    (64 ≤ g → g < 128 → gaindiglow_value g = g * 4 / 2) ∧
    (128 ≤ g → g < 256 → gaindiglow_value g = g * 4 / 4) ∧
    (256 ≤ g → g < 512 → gaindiglow_value g = g * 4 / 8) ∧
    (512 ≤ g → g < 1024 → gaindiglow_value g = g * 4 / 16) ∧
    (1024 ≤ g → g < 2048 → gaindiglow_value g = g * 4 / 32) ∧
    (2048 ≤ g → g < 4096 → gaindiglow_value g = g * 4 / 64) ∧
    (4096 ≤ g → gaindiglow_value g = g * 4 / 128) := by
  have e : g * 8 * 100 / 200 = g * 4 := by omega
  have k : ∀ d : Int, 0 < d →
      c_div (c_div (s32 (g <<< (3 : Int)) * 100) 200) d = g * 4 / d := by
    intro d hd
    rw [gain_scale_eq g d (by omega) h2 hd, e]
  refine ⟨?_, ?_, ?_, ?_, ?_, ?_, ?_, ?_, ?_⟩
  · intro h
    simp (disch := omega) only [gaindiglow_value, if_pos]
    rw [shl3_eq]
    exact s32_of_range _ (by omega) (by omega)
  · intro ha hb
    simp (disch := omega) only [gaindiglow_value, if_pos, if_neg]
    rw [k 1 (by decide)]; omega
  · intro ha hb
    simp (disch := omega) only [gaindiglow_value, if_pos, if_neg]
    exact k 2 (by decide)
  · intro ha hb
    simp (disch := omega) only [gaindiglow_value, if_pos, if_neg]
    exact k 4 (by decide)
  · intro ha hb
    simp (disch := omega) only [gaindiglow_value, if_pos, if_neg]
    exact k 8 (by decide)
  · intro ha hb
    simp (disch := omega) only [gaindiglow_value, if_pos, if_neg]
    exact k 16 (by decide)
  · intro ha hb
    simp (disch := omega) only [gaindiglow_value, if_pos, if_neg]
    exact k 32 (by decide)
  · intro ha hb
    simp (disch := omega) only [gaindiglow_value, if_pos, if_neg]
    exact k 64 (by decide)
  · intro ha
    simp (disch := omega) only [gaindiglow_value, if_pos, if_neg]
    exact k 128 (by decide)

/-- The computed digital-gain low value is a byte of at least 0x80. -/
theorem gaindiglow_value_range (g : Int) (h1 : 16 ≤ g) (h2 : g < 8192) :
    0x80 ≤ gaindiglow_value g ∧ gaindiglow_value g ≤ 0xFF := by
  obtain ⟨v1, v2, v3, v4, v5, v6, v7, v8, v9⟩ := gaindiglow_value_eq g h1 h2
  rcases gain_ranges g h1 with h | h | h | h | h | h | h | h | h | h
  · rw [v1 h.2]; omega
  · rw [v2 h.1 h.2]; omega
  · rw [v3 h.1 h.2]; omega
  · rw [v4 h.1 h.2]; omega
  · rw [v5 h.1 h.2]; omega
  · rw [v6 h.1 h.2]; omega
  · rw [v7 h.1 h.2]; omega
  · rw [v8 h.1 h.2]; omega
  · rw [v9 h.1]; omega
  · omega

/-- Within one bucket the computed digital-gain low value does not decrease. -/
theorem gaindiglow_value_mono (g g' : Int) (h1 : 16 ≤ g) (h2 : g < 8192)
    (b : gain_bucket) (hb : b ∈ gain_buckets) (hg : b.contains g = true)
    (hg' : b.contains g' = true) (hle : g ≤ g') :
    gaindiglow_value g ≤ gaindiglow_value g' := by
  have hg'lt : g' < 8192 := by
    rcases (mem_gain_buckets b).1 hb with e | e | e | e | e | e | e | e | e | e <;>
      subst e <;> simp [gain_bucket.contains] at hg hg' <;> omega
  obtain ⟨v1, v2, v3, v4, v5, v6, v7, v8, v9⟩ := gaindiglow_value_eq g h1 h2
  obtain ⟨w1, w2, w3, w4, w5, w6, w7, w8, w9⟩ :=
    gaindiglow_value_eq g' (by omega) hg'lt
  rcases (mem_gain_buckets b).1 hb with e | e | e | e | e | e | e | e | e | e <;>
    subst e <;> simp [gain_bucket.contains] at hg hg'
  · rw [v1 hg.2, w1 hg'.2]; omega
  · rw [v2 hg.1 hg.2, w2 hg'.1 hg'.2]; omega
  · rw [v3 hg.1 hg.2, w3 hg'.1 hg'.2]; omega
  · rw [v4 hg.1 hg.2, w4 hg'.1 hg'.2]; omega
  · rw [v5 hg.1 hg.2, w5 hg'.1 hg'.2]; omega
  · rw [v6 hg.1 hg.2, w6 hg'.1 hg'.2]; omega
  · rw [v7 hg.1 hg.2, w7 hg'.1 hg'.2]; omega
  · rw [v8 hg.1 hg.2, w8 hg'.1 hg'.2]; omega
  · rw [v9 hg.1, w9 hg'.1]; omega
  · omega

/-- C23: for every gain `g` with `16 ≤ g < 8192`, the digital-gain-low value
`sensor_s_gain` computes lies in `[0x80, 0xFF]` before the cast to `unsigned char`, so
the byte written to 0x3e07 is the computed value with no truncation; and within each
bucket it is non-decreasing in `g`. -/
theorem C23_digital_low_range_monotone (s : sensor_state) (g : Int)
    (h1 : 16 ≤ g) (h2 : g < 8192) :
    (0x80 ≤ gaindiglow_value g ∧ gaindiglow_value g ≤ 0xFF) ∧
    ((uchar_of_int (gaindiglow_value g) : Nat) : Int) = gaindiglow_value g ∧
    (∃ a dh : Int, (sensor_s_gain s g).2.bus.log = s.bus.log ++
      [cci_op.wr 0x3e09 a, cci_op.wr 0x3e07 (gaindiglow_value g), cci_op.wr 0x3e06 dh]) ∧
    (∀ (g' : Int) (b : gain_bucket), b ∈ gain_buckets → b.contains g = true →
      b.contains g' = true → g ≤ g' → gaindiglow_value g ≤ gaindiglow_value g') := by
  have hr := gaindiglow_value_range g h1 h2
  have hc : ((uchar_of_int (gaindiglow_value g) : Nat) : Int) = gaindiglow_value g :=
    uchar_of_int_of_byte _ (by omega) (by omega)
  refine ⟨hr, hc, ?_, fun g' b hb hg hg' hle =>
    gaindiglow_value_mono g g' h1 h2 b hb hg hg' hle⟩
  obtain ⟨a, dh, hlog⟩ := sensor_s_gain_dlow s g
  rw [hc] at hlog
  exact ⟨a, dh, hlog⟩

/-- C23 at `g = 100` and `g' = 127` in the bucket `[64, 128)`: the computed values are
200 and 254, both in `[0x80, 0xFF]`, and 200 is written to 0x3e07 unchanged. -/
theorem C23_digital_low_range_monotone_witness :
    ((16 : Int) ≤ 100 ∧ (100 : Int) < 8192) ∧
    gaindiglow_value 100 = 200 ∧ gaindiglow_value 127 = 254 ∧
    (0x80 ≤ gaindiglow_value 100 ∧ gaindiglow_value 100 ≤ 0xFF) ∧
    gaindiglow_value 100 ≤ gaindiglow_value 127 ∧
    (∃ a dh : Int,
      (sensor_s_gain (probe_state (quiet_bus 0) sensor_win_sizes_0) 100).2.bus.log =
        [cci_op.wr 0x3e09 a, cci_op.wr 0x3e07 200, cci_op.wr 0x3e06 dh]) := by
  have h := C23_digital_low_range_monotone
    (probe_state (quiet_bus 0) sensor_win_sizes_0) 100 (by decide) (by decide)
  have e : gaindiglow_value 100 = 200 := by decide
  refine ⟨by decide, e, by decide, h.1, ?_, ?_⟩
  · exact h.2.2.2 127 (gain_bucket.mk 64 (some 128) 0x09)
      ((mem_gain_buckets _).2 (Or.inr (Or.inr (Or.inl rfl)))) (by decide) (by decide)
      (by decide)
  · obtain ⟨a, dh, hlog⟩ := h.2.2.1
    rw [e] at hlog
    exact ⟨a, dh, hlog⟩

end Sc4336
